import Mathlib

/-!
Verification development for the Turbo Console model-routing service.

The definitions below are a shallow embedding of the service's catalog
builder, selector, rate-limit cache, credit/usability evaluator, health
tracker, response normalizer and error taxonomy.  JavaScript runtime
behaviour (string truthiness, `parseInt`, object-key lookup, property
access on `null`) is embedded explicitly where the source relies on it.
-/

namespace TurboConsole

/-! ### JavaScript string / number primitives -/

/-- Lower-case a string character-wise (JS `String.prototype.toLowerCase`
on the ASCII identifiers used by the service). -/
def toLowerStr (s : String) : String := String.mk (s.data.map Char.toLower)

/-- Does the second character list start with the first? -/
def chStarts : List Char → List Char → Bool
  | [], _ => true
  | _ :: _, [] => false
  | a :: as, b :: bs => a == b && chStarts as bs

/-- Does the second character list contain the first as a contiguous run? -/
def chIncl (pat : List Char) : List Char → Bool
  | [] => pat.isEmpty
  | c :: rest => chStarts pat (c :: rest) || chIncl pat rest

/-- JS `String.prototype.includes`. -/
def strIncludes (s pat : String) : Bool := chIncl pat.data s.data

def isJsSpace (c : Char) : Bool := c == ' ' || c == '\t' || c == '\n' || c == '\r'

/-- Accumulate a leading run of decimal digits; `none` when no digit was seen. -/
def digitsVal : List Char → Option Nat → Option Nat
  | [], acc => acc
  | c :: rest, acc =>
    if c.isDigit then digitsVal rest (some ((acc.getD 0) * 10 + (c.toNat - 48)))
    else acc

/-- JS `parseInt(value, 10)`: skip leading whitespace, optional sign, then the
longest run of decimal digits; `none` models `NaN`. -/
def jsParseInt (s : String) : Option Int :=
  match s.data.dropWhile isJsSpace with
  | '-' :: rest => (digitsVal rest none).map (fun n => -(n : Int))
  | '+' :: rest => (digitsVal rest none).map (fun n => (n : Int))
  | t => (digitsVal t none).map (fun n => (n : Int))

/-- JS `a || b` for an optional string `a`, where `undefined` and the empty
string are falsy. -/
def jsOrStr (o : Option String) (dflt : String) : String :=
  match o with
  | some s => if s = "" then dflt else s
  | none => dflt

/-- First-match association lookup (JS object property read for the
string-keyed records the service uses). -/
def lookupA {α : Type} (l : List (String × α)) (k : String) : Option α :=
  (l.find? (fun p => p.1 == k)).map (fun p => p.2)

/-- JS `Array.prototype.indexOf` specialised to string lists. -/
def jsIndexOf : List String → String → Int
  | [], _ => -1
  | h :: t, s =>
    if h = s then 0
    else
      let r := jsIndexOf t s
      if r = -1 then -1 else r + 1

/-! ### Capabilities, ratings and the model data model -/

inductive Capability where
  | chat
  | reasoning
  | speed
  | coding
  | images
  | audio_speech
  | audio_music
  | vision
  | video
  deriving DecidableEq, Repr

structure ModelCapabilities where
  chat : Bool
  reasoning : Bool
  speed : Bool
  coding : Bool
  images : Bool
  audio_speech : Bool
  audio_music : Bool
  vision : Bool
  video : Bool
  deriving DecidableEq, Repr

def capGet (c : ModelCapabilities) : Capability → Bool
  | .chat => c.chat
  | .reasoning => c.reasoning
  | .speed => c.speed
  | .coding => c.coding
  | .images => c.images
  | .audio_speech => c.audio_speech
  | .audio_music => c.audio_music
  | .vision => c.vision
  | .video => c.video

structure ModelRatings where
  chat : Option Int
  reasoning : Option Int
  speed : Option Int
  coding : Option Int
  images : Option Int
  audio_speech : Option Int
  audio_music : Option Int
  vision : Option Int
  video : Option Int
  deriving DecidableEq, Repr

def ratingGet (r : ModelRatings) : Capability → Option Int
  | .chat => r.chat
  | .reasoning => r.reasoning
  | .speed => r.speed
  | .coding => r.coding
  | .images => r.images
  | .audio_speech => r.audio_speech
  | .audio_music => r.audio_music
  | .vision => r.vision
  | .video => r.video

def CAPABILITY_KEYS : List Capability :=
  [.chat, .reasoning, .speed, .coding, .images, .audio_speech, .audio_music, .vision, .video]

def capFlagsNone : ModelCapabilities :=
  ⟨false, false, false, false, false, false, false, false, false⟩

/-- `capabilityTemplate`: start from the all-false template and set each key of
`CAPABILITY_KEYS` that is truthy in `flags`.  `CAPABILITY_KEYS` enumerates all
nine fields, so the result carries exactly the flags given. -/
def capabilityTemplate (flags : ModelCapabilities) : ModelCapabilities :=
  { chat := flags.chat
    reasoning := flags.reasoning
    speed := flags.speed
    coding := flags.coding
    images := flags.images
    audio_speech := flags.audio_speech
    audio_music := flags.audio_music
    vision := flags.vision
    video := flags.video }

/-- Ratings generated from capabilities: 1 if supported, 0 if not. -/
def ratingFromCapabilities (capabilities : ModelCapabilities) : ModelRatings :=
  { chat := some (if capabilities.chat then 1 else 0)
    reasoning := some (if capabilities.reasoning then 1 else 0)
    speed := some (if capabilities.speed then 1 else 0)
    coding := some (if capabilities.coding then 1 else 0)
    images := some (if capabilities.images then 1 else 0)
    audio_speech := some (if capabilities.audio_speech then 1 else 0)
    audio_music := some (if capabilities.audio_music then 1 else 0)
    vision := some (if capabilities.vision then 1 else 0)
    video := some (if capabilities.video then 1 else 0) }

/-- Infer capabilities from the model id (case-insensitive substring match,
first match wins). -/
def inferCapabilities (modelId : String) : ModelCapabilities :=
  let lowered := toLowerStr modelId
  if strIncludes lowered "whisper" then
    capabilityTemplate { capFlagsNone with audio_speech := true, speed := true }
  else if strIncludes lowered "tts" || strIncludes lowered "playai" then
    capabilityTemplate { capFlagsNone with audio_speech := true, speed := true }
  else if strIncludes lowered "img" || strIncludes lowered "vision" || strIncludes lowered "image" then
    capabilityTemplate { capFlagsNone with vision := true, images := true }
  else if strIncludes lowered "video" || strIncludes lowered "sora" then
    capabilityTemplate { capFlagsNone with video := true }
  else
    capabilityTemplate { capFlagsNone with chat := true, reasoning := true, speed := true, coding := true }

/-! ### Registry / database shape -/

/-- Per-model detail overlay entry.  `cost_tier` is kept as a raw string:
the source reads it from loosely-typed JSON and casts without a runtime
check. -/
structure ModelDetail where
  provider : Option String
  route : Option String
  capabilities : Option ModelCapabilities
  ratings : Option ModelRatings
  limits : Option (List (String × Int))
  cost_tier : Option String
  uses_puter_credits : Bool
  cost_notes : Option String
  notes : Option String
  deriving DecidableEq, Repr

def emptyDetail : ModelDetail :=
  ⟨none, none, none, none, none, none, false, none, none⟩

/-- A registry bucket value: either a list of model ids or some non-list
JSON value (skipped by the catalog builder). -/
inductive BucketVal where
  | items (ids : List String)
  | other
  deriving DecidableEq, Repr

structure Database where
  model_registry : List (String × List (String × BucketVal))
  free_models : List String
  model_details : List (String × ModelDetail)
  deriving DecidableEq, Repr

def COST_TIER_ORDER : List String := ["local", "remote_free", "credit_backed", "paid"]

/-- Normalize cost tier from database. -/
def normalizeCostTier (modelId : String) (db : Database) : String :=
  if db.free_models.contains modelId then "remote_free"
  else
    match lookupA db.model_details modelId with
    | some d =>
      match d.cost_tier with
      | some t => if t = "" then "paid" else t
      | none => "paid"
    | none => "paid"

def PROVIDER_BUCKETS : List String :=
  ["direct_api", "openrouter", "togetherai", "groq", "mistral", "cerebras", "cloudflare",
   "huggingface", "gemini", "github", "cohere", "perplexity", "puter"]

/-- Parse a route key to (provider, route) via the fixed lookup table, with a
pass-through fallback for unknown keys. -/
def parseRouteKey (routeKey : String) : String × String :=
  if routeKey = "openrouter" then ("openrouter", "openrouter")
  else if routeKey = "togetherai" then ("togetherai", "togetherai")
  else if routeKey = "groq" then ("groq", "groq")
  else if routeKey = "mistral" then ("mistral", "mistral")
  else if routeKey = "cerebras" then ("cerebras", "cerebras")
  else if routeKey = "cloudflare" then ("cloudflare", "cloudflare")
  else if routeKey = "huggingface" then ("huggingface", "huggingface")
  else if routeKey = "gemini" then ("gemini", "gemini")
  else if routeKey = "github" then ("github", "github")
  else if routeKey = "cohere" then ("cohere", "cohere")
  else if routeKey = "perplexity" then ("perplexity", "perplexity")
  else if routeKey = "puter" then ("puter", "puter")
  else if routeKey = "direct_api" then ("direct", "direct")
  else (routeKey, routeKey)

structure Model where
  id : String
  provider : String
  company : String
  route : String
  capabilities : ModelCapabilities
  ratings : Option ModelRatings
  limits : List (String × Int)
  cost_tier : String
  uses_puter_credits : Bool
  cost_notes : String
  notes : String
  deriving DecidableEq, Repr

/-- Construct one descriptor for a (company, bucket, modelId) triple. -/
def buildOneModel (db : Database) (companyKey bucket modelId : String) : Model :=
  let pr := parseRouteKey bucket
  let base := (lookupA db.model_details modelId).getD emptyDetail
  let capabilities :=
    match base.capabilities with
    | some c => capabilityTemplate c
    | none => inferCapabilities modelId
  { id := modelId
    provider := jsOrStr base.provider pr.1
    company := companyKey
    route := jsOrStr base.route pr.2
    capabilities := capabilities
    ratings := some (base.ratings.getD (ratingFromCapabilities capabilities))
    limits := base.limits.getD []
    cost_tier := jsOrStr base.cost_tier (normalizeCostTier modelId db)
    uses_puter_credits := base.uses_puter_credits
    cost_notes := jsOrStr base.cost_notes ""
    notes := jsOrStr base.notes "" }

/-- Build the complete model list from the database: for each registry company,
iterate the fixed `PROVIDER_BUCKETS` names; a bucket holding a list of model
ids yields one descriptor per id, anything else is skipped. -/
def buildModelList (db : Database) : List Model :=
  db.model_registry.flatMap (fun ck =>
    PROVIDER_BUCKETS.flatMap (fun bucket =>
      match lookupA ck.2 bucket with
      | some (.items modelIds) => modelIds.map (buildOneModel db ck.1 bucket)
      | _ => []))

/-! ### Selector -/

structure ModelFilterQuery where
  provider : Option String
  cost_tier : Option String
  capability : Option Capability
  deriving DecidableEq, Repr

structure ModelSuggestionConstraints where
  provider : Option String
  cost_tier : Option String
  capability : Option Capability
  max_cost_tier : Option String
  deriving DecidableEq, Repr

/-- Filter models based on query.  A supplied-but-empty string is falsy in the
source and imposes no constraint. -/
def filterModels (models : List Model) (query : ModelFilterQuery) : List Model :=
  models.filter (fun model =>
    (match query.provider with
     | some p => if p = "" then true else model.provider == p
     | none => true) &&
    (match query.cost_tier with
     | some t => if t = "" then true else model.cost_tier == t
     | none => true) &&
    (match query.capability with
     | some c => capGet model.capabilities c
     | none => true))

structure ScoredModel extends Model where
  score : Int
  deriving DecidableEq, Repr

/-- `ratings?.speed || 0`. -/
def modelSpeed (m : Model) : Int :=
  match m.ratings with
  | some r => r.speed.getD 0
  | none => 0

/-- `(model.ratings && model.ratings[capabilityKey]) || 0`. -/
def scoreFor (m : Model) (capabilityKey : Capability) : Int :=
  match m.ratings with
  | some r => (ratingGet r capabilityKey).getD 0
  | none => 0

/-- The total preorder induced by the selector's comparator: ascending
cost-tier index, then descending score, then descending speed rating. -/
def suggestLE (a b : ScoredModel) : Prop :=
  jsIndexOf COST_TIER_ORDER a.cost_tier < jsIndexOf COST_TIER_ORDER b.cost_tier ∨
    (jsIndexOf COST_TIER_ORDER a.cost_tier = jsIndexOf COST_TIER_ORDER b.cost_tier ∧
      (b.score < a.score ∨ (b.score = a.score ∧ modelSpeed b.toModel ≤ modelSpeed a.toModel)))

instance : DecidableRel suggestLE := fun a b => by
  unfold suggestLE
  exact inferInstance

instance : IsTotal ScoredModel suggestLE := by
  constructor
  intro a b
  unfold suggestLE
  omega

instance : IsTrans ScoredModel suggestLE := by
  constructor
  intro a b c
  unfold suggestLE
  omega

/-- Suggest models based on constraints, filtered by the cost ceiling and
sorted by the comparator (the comparator is a total preorder; a stable sort
with respect to it models the JS engine's stable `Array.prototype.sort`). -/
def suggestModels (models : List Model) (constraints : ModelSuggestionConstraints) : List ScoredModel :=
  let filtered :=
    filterModels models ⟨constraints.provider, constraints.cost_tier, constraints.capability⟩
  let capabilityKey := constraints.capability.getD .chat
  let maxCostIndex : Int :=
    match constraints.max_cost_tier with
    | some t => if t = "" then (COST_TIER_ORDER.length : Int) - 1 else jsIndexOf COST_TIER_ORDER t
    | none => (COST_TIER_ORDER.length : Int) - 1
  let eligible := filtered.filter (fun m =>
    let idx := jsIndexOf COST_TIER_ORDER m.cost_tier
    idx != -1 && decide (idx ≤ maxCostIndex))
  let scored := eligible.map
    (fun model => ({ toModel := model, score := scoreFor model capabilityKey } : ScoredModel))
  scored.insertionSort suggestLE

/-! ### Rate-limit header parsing and cache -/

structure RateLimitInfo where
  requests_remaining : Option Int
  requests_limit : Option Int
  tokens_remaining : Option Int
  tokens_limit : Option Int
  reset_time : Option String
  deriving DecidableEq, Repr

/-- A response-header collection; `get` is case-insensitive on names. -/
def HeadersJ : Type := List (String × String)

def headersGet (hs : HeadersJ) (name : String) : Option String :=
  (hs.find? (fun p => toLowerStr p.1 == name)).map (fun p => p.2)

def RATE_LIMIT_HEADER_NAMES : List String :=
  ["x-ratelimit-remaining-requests", "x-ratelimit-limit-requests",
   "x-ratelimit-remaining-tokens", "x-ratelimit-limit-tokens",
   "x-ratelimit-reset-requests", "x-ratelimit-reset"]

/-- Parse rate limit headers from a provider response, walking the header map
in its fixed insertion order (both reset spellings write `reset_time`; numeric
fields are `parseInt`-parsed and skipped when `NaN`). -/
def parseRateLimitHeaders (headers : Option HeadersJ) : RateLimitInfo :=
  match headers with
  | none => ⟨none, none, none, none, none⟩
  | some hs =>
    let l0 : RateLimitInfo := ⟨none, none, none, none, none⟩
    let l1 :=
      match headersGet hs "x-ratelimit-remaining-requests" with
      | some v =>
        match jsParseInt v with
        | some n => { l0 with requests_remaining := some n }
        | none => l0
      | none => l0
    let l2 :=
      match headersGet hs "x-ratelimit-limit-requests" with
      | some v =>
        match jsParseInt v with
        | some n => { l1 with requests_limit := some n }
        | none => l1
      | none => l1
    let l3 :=
      match headersGet hs "x-ratelimit-remaining-tokens" with
      | some v =>
        match jsParseInt v with
        | some n => { l2 with tokens_remaining := some n }
        | none => l2
      | none => l2
    let l4 :=
      match headersGet hs "x-ratelimit-limit-tokens" with
      | some v =>
        match jsParseInt v with
        | some n => { l3 with tokens_limit := some n }
        | none => l3
      | none => l3
    let l5 :=
      match headersGet hs "x-ratelimit-reset-requests" with
      | some v => { l4 with reset_time := some v }
      | none => l4
    match headersGet hs "x-ratelimit-reset" with
    | some v => { l5 with reset_time := some v }
    | none => l5

structure CachedRateLimit where
  requests_remaining : Option Int
  requests_limit : Option Int
  tokens_remaining : Option Int
  tokens_limit : Option Int
  reset_time : Option String
  updated_at : String
  deriving DecidableEq, Repr

def cachedOfInfo (info : RateLimitInfo) (now : String) : CachedRateLimit :=
  ⟨info.requests_remaining, info.requests_limit, info.tokens_remaining,
   info.tokens_limit, info.reset_time, now⟩

namespace RateLimitService

/-- The cache: a string-keyed record. -/
def State : Type := List (String × CachedRateLimit)

def emptyState : State := []

def getCacheKey (provider modelId : String) : String :=
  provider ++ ":" ++ modelId

/-- JS object property write: replace the first binding of the key, else
append. -/
def assocSet : List (String × CachedRateLimit) → String → CachedRateLimit →
    List (String × CachedRateLimit)
  | [], k, v => [(k, v)]
  | (k', v') :: t, k, v =>
    if k' = k then (k, v) :: t else (k', v') :: assocSet t k v

/-- Update rate limit cache from response headers (`updated_at` is the
current timestamp string). -/
def updateFromHeaders (s : State) (provider modelId : String) (headers : HeadersJ)
    (now : String) : State :=
  assocSet s (getCacheKey provider modelId)
    (cachedOfInfo (parseRateLimitHeaders (some headers)) now)

/-- Get cached rate limits for a provider/model. -/
def get (s : State) (provider modelId : String) : Option CachedRateLimit :=
  lookupA s (getCacheKey provider modelId)

/-- Check if a provider/model is rate limited. -/
def isRateLimited (s : State) (provider modelId : String) : Bool :=
  match get s provider modelId with
  | none => false
  | some cached =>
    (match cached.requests_remaining with
     | some n => decide (n ≤ 0)
     | none => false) ||
    (match cached.tokens_remaining with
     | some n => decide (n ≤ 0)
     | none => false)

end RateLimitService

/-! ### Puter credits lookup and model usability -/

/-- The ambient Puter SDK state as seen by one `getPuterCredits` call. -/
inductive PuterEnv where
  | noSdk
  | notSignedIn
  | throwsErr (msg : String)
  | user (credits : Option Int) (username : Option String)
  deriving DecidableEq, Repr

structure CreditsResult where
  available : Bool
  balance : Option Int
  username : Option String
  error : Option String
  deriving DecidableEq, Repr

/-- Get Puter credits status.  A throwing SDK call is caught and reported as
unavailable; a signed-in user yields `balance = credits || 0`. -/
def getPuterCredits : PuterEnv → CreditsResult
  | .noSdk =>
    ⟨false, none, none, some "Puter SDK not available - not running inside Puter environment"⟩
  | .notSignedIn => ⟨false, none, none, some "No Puter user signed in"⟩
  | .throwsErr msg => ⟨false, none, none, some msg⟩
  | .user credits username => ⟨true, some (credits.getD 0), username, none⟩

/-- JS string coercion of a nullable string (`null` prints as "null" under
string concatenation). -/
def jsStrOfOpt (o : Option String) : String :=
  match o with
  | some s => s
  | none => "null"

structure ModelUsabilityResult where
  usable : Bool
  reason : String
  credits_required : Bool
  credits_available : Option Int
  rate_limits : Option CachedRateLimit
  deriving DecidableEq, Repr

/-- External state consulted by one usability / exhaustion evaluation:
the credit-balance lookup result and the rate-limit cache. -/
structure UsabilityEnv where
  credits : CreditsResult
  rl : RateLimitService.State

/-- Check if a model is usable for the current Puter account. -/
def isModelUsable (env : UsabilityEnv) (model : Model) : ModelUsabilityResult :=
  if model.uses_puter_credits || model.cost_tier == "credit_backed" then
    let credits := env.credits
    if !credits.available then
      { usable := false
        reason := "Cannot verify Puter credits: " ++ jsStrOfOpt credits.error
        credits_required := true
        credits_available := none
        rate_limits := none }
    else
      match credits.balance with
      | some b =>
        if b ≤ 0 then
          { usable := false
            reason := "Puter credits exhausted (balance: 0)"
            credits_required := true
            credits_available := some b
            rate_limits := none }
        else
          { usable := true
            reason := "Puter credits available"
            credits_required := true
            credits_available := some b
            rate_limits := none }
      | none =>
        { usable := true
          reason := "Puter credits available"
          credits_required := true
          credits_available := none
          rate_limits := none }
  else
    let recentLimits := RateLimitService.get env.rl model.provider model.id
    match recentLimits with
    | some limits =>
      if (match limits.requests_remaining with
          | some r => decide (r ≤ 0)
          | none => false) then
        { usable := false
          reason := "Rate limit exhausted for " ++ model.provider ++ " - " ++
            toString (limits.requests_remaining.getD 0) ++ " requests remaining"
          credits_required := false
          credits_available := none
          rate_limits := recentLimits }
      else if (match limits.tokens_remaining with
          | some t => decide (t ≤ 0)
          | none => false) then
        { usable := false
          reason := "Token quota exhausted for " ++ model.provider ++ " - " ++
            toString (limits.tokens_remaining.getD 0) ++ " tokens remaining"
          credits_required := false
          credits_available := none
          rate_limits := recentLimits }
      else
        { usable := true
          reason := "No exhaustion detected (no recent rate limit data)"
          credits_required := false
          credits_available := none
          rate_limits := recentLimits }
    | none =>
      { usable := true
        reason := "No exhaustion detected (no recent rate limit data)"
        credits_required := false
        credits_available := none
        rate_limits := none }

/-! ### Boost-tier exhaustion -/

/-- Map boost tier to cost tier (`BOOST_TIERS` lookup with `null` fallback). -/
def boostTierToCostTier (boostTier : String) : Option String :=
  if boostTier = "turbo" then some "remote_free"
  else if boostTier = "ultra" then some "credit_backed"
  else none

structure UnusableReason where
  model_id : String
  provider : String
  reason : String
  deriving DecidableEq, Repr

structure BoostTierExhaustionResult where
  boost_tier : String
  valid : Bool
  error : Option String
  cost_tier : Option String
  exhausted : Option Bool
  reason : Option String
  total_models : Option Nat
  usable_models : Option Nat
  unusable_models : Option Nat
  usable_model_ids : Option (List String)
  unusable_model_ids : Option (List String)
  unusable_reasons : Option (List UnusableReason)
  message : Option String
  deriving DecidableEq, Repr

/-- Check if a boost tier is exhausted for the current account. -/
def checkBoostTierExhaustion (env : UsabilityEnv) (boostTier : String) (db : Database) :
    BoostTierExhaustionResult :=
  match boostTierToCostTier boostTier with
  | none =>
    { boost_tier := boostTier
      valid := false
      error := some ("Invalid boost_tier: " ++ boostTier ++
        ". Must be \x27turbo\x27 or \x27ultra\x27.")
      cost_tier := none
      exhausted := none
      reason := none
      total_models := none
      usable_models := none
      unusable_models := none
      usable_model_ids := none
      unusable_model_ids := none
      unusable_reasons := none
      message := none }
  | some costTier =>
    let allModels := buildModelList db
    let tierModels := allModels.filter (fun m => m.cost_tier == costTier)
    if tierModels.length = 0 then
      { boost_tier := boostTier
        valid := true
        error := none
        cost_tier := some costTier
        exhausted := some true
        reason := some "No models available for this boost tier"
        total_models := some 0
        usable_models := some 0
        unusable_models := some 0
        usable_model_ids := none
        unusable_model_ids := none
        unusable_reasons := none
        message := none }
    else
      let usabilityChecks := tierModels.map
        (fun model => (model.id, model.provider, isModelUsable env model))
      let usableModels := usabilityChecks.filter (fun c => c.2.2.usable)
      let unusableModels := usabilityChecks.filter (fun c => !c.2.2.usable)
      let exhausted := usableModels.length = 0
      { boost_tier := boostTier
        valid := true
        error := none
        cost_tier := some costTier
        exhausted := some exhausted
        reason := none
        total_models := some tierModels.length
        usable_models := some usableModels.length
        unusable_models := some unusableModels.length
        usable_model_ids := some (usableModels.map (fun c => c.1))
        unusable_model_ids := some (unusableModels.map (fun c => c.1))
        unusable_reasons := some (unusableModels.map
          (fun c => ⟨c.1, c.2.1, c.2.2.reason⟩))
        message := some (if exhausted then
            "All eligible " ++ boostTier ++
              " models are exhausted for this Puter account. Please log out of Puter OS and log into the next account in your rotation if you want to continue using this tier."
          else
            toString usableModels.length ++ " of " ++ toString tierModels.length ++ " " ++
              boostTier ++ " models are still usable.") }

/-! ### Health tracker -/

inductive HealthKind where
  | healthy
  | degraded
  | down
  | unknown
  deriving DecidableEq, Repr

/-- One recorded provider call.  Timestamps are milliseconds since the epoch
(the source stores ISO strings and compares their parsed `Date` values). -/
structure ProviderHealthRecord where
  model_id : String
  success : Bool
  latency_ms : Nat
  error_message : Option String
  timestamp : Int
  deriving DecidableEq, Repr

structure ProviderHealthStatus where
  provider : String
  status : HealthKind
  latency_ms : Option Nat
  last_checked : Option Int
  last_success : Option Int
  last_error : Option String
  error_count_last_hour : Nat
  success_rate_last_hour : Option ℚ
  models_available : Nat
  deriving DecidableEq, Repr

namespace HealthService

/-- Calls recorded within the last hour (strictly newer than `now - 1h`). -/
def recentOf (history : List ProviderHealthRecord) (now : Int) : List ProviderHealthRecord :=
  history.filter (fun h => decide (now - 3600000 < h.timestamp))

/-- Most recent successful call over the whole buffer. -/
def lastSuccessOf (history : List ProviderHealthRecord) : Option ProviderHealthRecord :=
  history.reverse.find? (fun h => h.success)

/-- Successful calls with truthy (non-zero) latency, used for the average. -/
def successfulCallsOf (recent : List ProviderHealthRecord) : List ProviderHealthRecord :=
  recent.filter (fun h => h.success && h.latency_ms != 0)

/-- `Math.round(sum / len)` for the non-negative latency average. -/
def avgLatencyOf (recent : List ProviderHealthRecord) : Option Nat :=
  let calls := successfulCallsOf recent
  if calls.length = 0 then none
  else some ((2 * (calls.map (fun h => h.latency_ms)).sum + calls.length) / (2 * calls.length))

/-- Exact success ratio over the window. -/
def successRateOf (recent : List ProviderHealthRecord) : Option ℚ :=
  if recent.length = 0 then none
  else some (((recent.filter (fun h => h.success)).length : ℚ) / (recent.length : ℚ))

/-- Get health status for a provider. -/
def getProviderStatus (history : List ProviderHealthRecord) (now : Int) (db : Database)
    (provider : String) : ProviderHealthStatus :=
  if history.length = 0 then
    { provider := provider
      status := .unknown
      latency_ms := none
      last_checked := none
      last_success := none
      last_error := none
      error_count_last_hour := 0
      success_rate_last_hour := none
      models_available := ((buildModelList db).filter (fun m => m.provider == provider)).length }
  else
    let recentHistory := recentOf history now
    let lastCall := history.getLast?
    let lastSuccess := lastSuccessOf history
    let totalCount := recentHistory.length
    let successRate := successRateOf recentHistory
    let errorCount := (recentHistory.filter (fun h => !h.success)).length
    let avgLatency := avgLatencyOf recentHistory
    let status0 : HealthKind :=
      if 0 < totalCount then
        if (match successRate with
            | some q => decide ((19 : ℚ) / 20 ≤ q)
            | none => false) &&
           (match avgLatency with
            | some a => decide (a < 2000)
            | none => true) then .healthy
        else if (match successRate with
            | some q => decide ((1 : ℚ) / 2 ≤ q)
            | none => false) &&
           (match avgLatency with
            | some a => decide (a < 5000)
            | none => true) then .degraded
        else .down
      else .unknown
    let status : HealthKind :=
      if 0 < totalCount then
        match lastSuccess with
        | some ls =>
          if ls.timestamp < now - 900000 && 5 < totalCount then .down else status0
        | none => status0
      else status0
    { provider := provider
      status := status
      latency_ms := avgLatency
      last_checked := lastCall.map (fun h => h.timestamp)
      last_success := lastSuccess.map (fun h => h.timestamp)
      last_error :=
        match lastCall with
        | some c => if c.success = false then c.error_message else none
        | none => none
      error_count_last_hour := errorCount
      success_rate_last_hour := successRate
      models_available := ((buildModelList db).filter (fun m => m.provider == provider)).length }

end HealthService

/-! ### Response normalizer -/

/-- A JavaScript/JSON value as received from a provider.  A missing object
property is modelled by `Js.null` (observationally equivalent to `undefined`
inside `extractContent`: both are falsy, both throw on property access, and
neither is stringified directly). -/
inductive Js where
  | null
  | bool (b : Bool)
  | num (n : Int)
  | str (s : String)
  | arr (xs : List Js)
  | obj (fields : List (String × Js))

namespace Js

/-- JS truthiness (`null`, `false`, `0` and `""` are falsy; objects and
arrays are always truthy). -/
def truthy : Js → Bool
  | .null => false
  | .bool b => b
  | .num n => n != 0
  | .str s => s != ""
  | .arr _ => true
  | .obj _ => true

/-- `typeof v === "object"` combined with truthiness, as used by the
normalizer's guards (arrays and objects pass; `null` is falsy). -/
def isObjTruthy : Js → Bool
  | .obj _ => true
  | .arr _ => true
  | _ => false

/-- Property access `v[key]`: throws a `TypeError` on `null`, yields the
property value on objects (missing → `null`-as-undefined), and `null` on
other values. -/
def getProp : Js → String → Except String Js
  | .null, key => .error ("TypeError: Cannot read properties of null (reading " ++ key ++ ")")
  | .obj fields, key => .ok ((lookupA fields key).getD .null)
  | _, _ => .ok .null

mutual

/-- JS `String(v)` for the values the normalizer coerces. -/
def jsString : Js → String
  | .null => "null"
  | .bool b => if b then "true" else "false"
  | .num n => toString n
  | .str s => s
  | .arr xs => joinComma xs
  | .obj _ => "[object Object]"

/-- Array `toString`: elements joined by commas, nulls printing empty. -/
def joinComma : List Js → String
  | [] => ""
  | [x] => arrElemString x
  | x :: rest => arrElemString x ++ "," ++ joinComma rest

def arrElemString : Js → String
  | .null => ""
  | v => jsString v

end

def escapeChar (c : Char) : String :=
  if c = '"' then "\\\""
  else if c = '\\' then "\\\\"
  else if c = '\n' then "\\n"
  else if c = '\t' then "\\t"
  else if c = '\r' then "\\r"
  else String.singleton c

mutual

/-- `JSON.stringify` for the Js values above. -/
def stringify : Js → String
  | .null => "null"
  | .bool b => if b then "true" else "false"
  | .num n => toString n
  | .str s => "\"" ++ String.join (s.data.map escapeChar) ++ "\""
  | .arr xs => "[" ++ stringifyList xs ++ "]"
  | .obj fields => "\x7b" ++ stringifyFields fields ++ "\x7d"

def stringifyList : List Js → String
  | [] => ""
  | [x] => stringify x
  | x :: rest => stringify x ++ "," ++ stringifyList rest

def stringifyFields : List (String × Js) → String
  | [] => ""
  | [(k, v)] => "\"" ++ String.join (k.data.map escapeChar) ++ "\":" ++ stringify v
  | (k, v) :: rest =>
    "\"" ++ String.join (k.data.map escapeChar) ++ "\":" ++ stringify v ++ "," ++
      stringifyFields rest

end

end Js

/-- `String(x || '')`: the empty string when `x` is falsy, else `String(x)`. -/
def jsStringOrEmpty (v : Js) : String :=
  if v.truthy then Js.jsString v else ""

/-- OpenAI-compatible block: `choices[0].message.content`.  Returns
`some text` when the block matched and returned, `none` to fall through,
`error` when a property access threw. -/
def extractOpenAI (res : Js) : Except String (Option String) :=
  match res.getProp "choices" with
  | .error e => .error e
  | .ok choices =>
    match choices with
    | .arr (choice :: _) =>
      match choice.getProp "message" with
      | .error e => .error e
      | .ok message =>
        if message.truthy && message.isObjTruthy then
          match message.getProp "content" with
          | .error e => .error e
          | .ok content => .ok (some (jsStringOrEmpty content))
        else .ok none
    | _ => .ok none

/-- Anthropic block: `content[0].text`. -/
def extractAnthropic (res : Js) : Except String (Option String) :=
  match res.getProp "content" with
  | .error e => .error e
  | .ok content =>
    match content with
    | .arr (first :: _) =>
      match first.getProp "text" with
      | .error e => .error e
      | .ok text => .ok (some (jsStringOrEmpty text))
    | _ => .ok none

/-- Gemini block: `candidates[0].content.parts[0].text`. -/
def extractGemini (res : Js) : Except String (Option String) :=
  match res.getProp "candidates" with
  | .error e => .error e
  | .ok candidates =>
    match candidates with
    | .arr (candidate :: _) =>
      match candidate.getProp "content" with
      | .error e => .error e
      | .ok content =>
        if content.truthy && content.isObjTruthy then
          match content.getProp "parts" with
          | .error e => .error e
          | .ok parts =>
            match parts with
            | .arr (part :: _) =>
              match part.getProp "text" with
              | .error e => .error e
              | .ok text => .ok (some (jsStringOrEmpty text))
            | _ => .ok none
        else .ok none
    | _ => .ok none

/-- Cohere block: `message.content[0].text`. -/
def extractCohere (res : Js) : Except String (Option String) :=
  match res.getProp "message" with
  | .error e => .error e
  | .ok message =>
    if message.truthy && message.isObjTruthy then
      match message.getProp "content" with
      | .error e => .error e
      | .ok content =>
        match content with
        | .arr (first :: _) =>
          match first.getProp "text" with
          | .error e => .error e
          | .ok text => .ok (some (jsStringOrEmpty text))
        | _ => .ok none
    else .ok none

/-- Cloudflare block: `result.response` (always returns once `result` is a
truthy object). -/
def extractCloudflare (res : Js) : Except String (Option String) :=
  match res.getProp "result" with
  | .error e => .error e
  | .ok result =>
    if result.truthy && result.isObjTruthy then
      match result.getProp "response" with
      | .error e => .error e
      | .ok response => .ok (some (jsStringOrEmpty response))
    else .ok none

/-- HuggingFace block: truthy `generated_text`. -/
def extractHuggingFace (res : Js) : Except String (Option String) :=
  match res.getProp "generated_text" with
  | .error e => .error e
  | .ok g => if g.truthy then .ok (some (Js.jsString g)) else .ok none

/-- Extract content from a provider response, trying the provider shapes in
priority order and falling back to `JSON.stringify` of the whole response.
A thrown `TypeError` (property access on `null`/`undefined`) is an `error`
result. -/
def extractContent (response : Js) : Except String String :=
  match extractOpenAI response with
  | .error e => .error e
  | .ok (some s) => .ok s
  | .ok none =>
    match extractAnthropic response with
    | .error e => .error e
    | .ok (some s) => .ok s
    | .ok none =>
      match extractGemini response with
      | .error e => .error e
      | .ok (some s) => .ok s
      | .ok none =>
        match extractCohere response with
        | .error e => .error e
        | .ok (some s) => .ok s
        | .ok none =>
          match extractCloudflare response with
          | .error e => .error e
          | .ok (some s) => .ok s
          | .ok none =>
            match extractHuggingFace response with
            | .error e => .error e
            | .ok (some s) => .ok s
            | .ok none => .ok (Js.stringify response)

/-! ### Error taxonomy -/

inductive TurboError where
  | validation (message : String)
  | notFound (resourceType resourceId : String)
  | rateLimit (provider : String) (message : String) (retryAfterSeconds : Nat)
  | providerErr (provider : String) (message : String) (modelId : Option String)
  | configuration (configKey : String) (message : String)
  deriving DecidableEq, Repr

/-- Check if an error is a rate limit error based on message content. -/
def isRateLimitError (message : String) : Bool :=
  let m := toLowerStr message
  strIncludes m "rate" || strIncludes m "429" || strIncludes m "too many requests" ||
    strIncludes m "quota"

/-- Create an appropriate error from a provider response. -/
def createProviderError (provider : String) (statusCode : Nat) (message : String)
    (modelId : Option String) : TurboError :=
  if statusCode = 429 || isRateLimitError message then
    .rateLimit provider message 60
  else
    .providerErr provider message modelId

/-- `BaseProvider.getApiKey`: read the credential from the environment,
raising a configuration error when it is absent (or empty, which is falsy). -/
def getApiKey (env : List (String × String)) (envKey : String) : Except TurboError String :=
  match lookupA env envKey with
  | some k => if k = "" then .error (.configuration envKey (envKey ++ " not configured")) else .ok k
  | none => .error (.configuration envKey (envKey ++ " not configured"))

/-- `BaseProvider.handleErrorResponse`: raise a typed error for a non-success
provider response carrying the provider, model and raw error body. -/
def handleErrorResponse (name : String) (status : Nat) (errorText : String)
    (modelId : String) : TurboError :=
  createProviderError name status
    (name ++ " API error: " ++ toString status ++ " - " ++ errorText) (some modelId)

/-- All model-id occurrences the catalog builder walks: one per
(company, bucket in `PROVIDER_BUCKETS`, id) triple whose bucket holds a
list. -/
def registryIds (db : Database) : List String :=
  db.model_registry.flatMap (fun ck =>
    PROVIDER_BUCKETS.flatMap (fun bucket =>
      match lookupA ck.2 bucket with
      | some (.items ids) => ids
      | _ => []))


/-- The window-only part of the status cascade (before the stale-success
override). -/
def statusZeroOf (recent : List ProviderHealthRecord) : HealthKind :=
  if 0 < recent.length then
    if (match HealthService.successRateOf recent with
        | some q => decide ((19 : ℚ) / 20 ≤ q)
        | none => false) &&
       (match HealthService.avgLatencyOf recent with
        | some a => decide (a < 2000)
        | none => true) then .healthy
    else if (match HealthService.successRateOf recent with
        | some q => decide ((1 : ℚ) / 2 ≤ q)
        | none => false) &&
       (match HealthService.avgLatencyOf recent with
        | some a => decide (a < 5000)
        | none => true) then .degraded
    else .down
  else .unknown

/-- Success rate at least 0.95 and average successful latency below 2000ms
(or no latency data). -/
def healthyCond (recent : List ProviderHealthRecord) : Prop :=
  (∃ q, HealthService.successRateOf recent = some q ∧ (19 : ℚ) / 20 ≤ q) ∧
  (HealthService.avgLatencyOf recent = none ∨
    ∃ a, HealthService.avgLatencyOf recent = some a ∧ a < 2000)

/-- Success rate at least 0.5 and average successful latency below 5000ms
(or no latency data). -/
def degradedCond (recent : List ProviderHealthRecord) : Prop :=
  (∃ q, HealthService.successRateOf recent = some q ∧ (1 : ℚ) / 2 ≤ q) ∧
  (HealthService.avgLatencyOf recent = none ∨
    ∃ a, HealthService.avgLatencyOf recent = some a ∧ a < 5000)

/-- The stale-success override: the most recent successful call is more than
15 minutes old and more than 5 calls fall in the window. -/
def forcedDownCond (history : List ProviderHealthRecord) (now : Int) : Prop :=
  (∃ ls, HealthService.lastSuccessOf history = some ls ∧ ls.timestamp < now - 900000) ∧
  5 < (HealthService.recentOf history now).length

/-- Is this value `null`? -/
def Js.isNull : Js → Bool
  | .null => true
  | _ => false

/-- Pure property read for non-null values (missing property and
non-object receivers give `null`-as-undefined). -/
def propOf (j : Js) (k : String) : Js :=
  match j with
  | .obj fields => (lookupA fields k).getD .null
  | _ => .null

/-- No property access performed by the normalizer hits `null`/`undefined`:
the response itself and the array heads it reads are non-null. -/
def extractSafe (j : Js) : Bool :=
  !j.isNull &&
  (match propOf j "choices" with
   | .arr (c :: _) => !c.isNull
   | _ => true) &&
  (match propOf j "content" with
   | .arr (c :: _) => !c.isNull
   | _ => true) &&
  (match propOf j "candidates" with
   | .arr (c :: _) =>
     !c.isNull &&
     (if (propOf c "content").truthy && (propOf c "content").isObjTruthy then
        match propOf (propOf c "content") "parts" with
        | .arr (p :: _) => !p.isNull
        | _ => true
      else true)
   | _ => true) &&
  (if (propOf j "message").truthy && (propOf j "message").isObjTruthy then
     match propOf (propOf j "message") "content" with
     | .arr (c :: _) => !c.isNull
     | _ => true
   else true)

/-! ### Helper lemmas: cache lookup -/

theorem lookupA_assocSet_self (s : List (String × CachedRateLimit)) (k : String)
    (v : CachedRateLimit) :
    lookupA (RateLimitService.assocSet s k v) k = some v := by
  induction s with
  | nil => simp [RateLimitService.assocSet, lookupA]
  | cons hd tl ih =>
    rcases hd with ⟨k', v'⟩
    by_cases h : k' = k
    · simp [RateLimitService.assocSet, h, lookupA]
    · simp only [RateLimitService.assocSet, if_neg h]
      simpa [lookupA, List.find?_cons, h] using ih

theorem lookupA_assocSet_other (s : List (String × CachedRateLimit)) (k k' : String)
    (v : CachedRateLimit) (h : k ≠ k') :
    lookupA (RateLimitService.assocSet s k v) k' = lookupA s k' := by
  induction s with
  | nil => simp [RateLimitService.assocSet, lookupA, h]
  | cons hd tl ih =>
    rcases hd with ⟨k0, v0⟩
    by_cases h0 : k0 = k
    · subst h0
      simp [RateLimitService.assocSet, lookupA, List.find?_cons, h]
    · simp only [RateLimitService.assocSet, if_neg h0]
      by_cases h1 : k0 = k'
      · simp [lookupA, List.find?_cons, h1]
      · simpa [lookupA, List.find?_cons, h1] using ih

theorem parse_requests_remaining_zero (hs : HeadersJ)
    (h : headersGet hs "x-ratelimit-remaining-requests" = some "0") :
    (parseRateLimitHeaders (some hs)).requests_remaining = some 0 := by
  have h0 : jsParseInt "0" = some 0 := rfl
  simp only [parseRateLimitHeaders, h, h0]
  repeat' split
  all_goals rfl

theorem parse_all_none (hs : HeadersJ)
    (h : ∀ n ∈ RATE_LIMIT_HEADER_NAMES, headersGet hs n = none) :
    parseRateLimitHeaders (some hs) = ⟨none, none, none, none, none⟩ := by
  have h1 := h "x-ratelimit-remaining-requests" (by simp [RATE_LIMIT_HEADER_NAMES])
  have h2 := h "x-ratelimit-limit-requests" (by simp [RATE_LIMIT_HEADER_NAMES])
  have h3 := h "x-ratelimit-remaining-tokens" (by simp [RATE_LIMIT_HEADER_NAMES])
  have h4 := h "x-ratelimit-limit-tokens" (by simp [RATE_LIMIT_HEADER_NAMES])
  have h5 := h "x-ratelimit-reset-requests" (by simp [RATE_LIMIT_HEADER_NAMES])
  have h6 := h "x-ratelimit-reset" (by simp [RATE_LIMIT_HEADER_NAMES])
  simp [parseRateLimitHeaders, h1, h2, h3, h4, h5, h6]

/-- C10: `updateFromHeaders` replaces the cached entry for a (provider, model)
pair wholesale with the parse of the supplied headers plus a fresh update
timestamp; headers carrying none of the recognized rate-limit names leave all
five quota fields null, after which `isRateLimited` for the pair is false
regardless of what was cached before. -/
theorem rateLimit_update_wholesale (s : RateLimitService.State) (p m : String)
    (hs : HeadersJ) (now : String)
    (h : ∀ n ∈ RATE_LIMIT_HEADER_NAMES, headersGet hs n = none) :
    (∀ (s' : RateLimitService.State) (hs' : HeadersJ),
       RateLimitService.get (RateLimitService.updateFromHeaders s' p m hs' now) p m =
         some (cachedOfInfo (parseRateLimitHeaders (some hs')) now))
    ∧ RateLimitService.get (RateLimitService.updateFromHeaders s p m hs now) p m =
        some ⟨none, none, none, none, none, now⟩
    ∧ RateLimitService.isRateLimited (RateLimitService.updateFromHeaders s p m hs now) p m =
        false := by
  have hw : ∀ (s' : RateLimitService.State) (hs' : HeadersJ),
      RateLimitService.get (RateLimitService.updateFromHeaders s' p m hs' now) p m =
        some (cachedOfInfo (parseRateLimitHeaders (some hs')) now) := by
    intro s' hs'
    exact lookupA_assocSet_self s' (RateLimitService.getCacheKey p m) _
  refine ⟨hw, ?_, ?_⟩
  · rw [hw s hs, parse_all_none hs h]
    rfl
  · unfold RateLimitService.isRateLimited
    rw [hw s hs, parse_all_none hs h]
    rfl

/-- C10 witness: a pair made exhausted by one update is fully reset by a later
update whose headers carry no recognized rate-limit names. -/
theorem rateLimit_update_wholesale_witness :
    RateLimitService.isRateLimited
      (RateLimitService.updateFromHeaders
        (RateLimitService.updateFromHeaders RateLimitService.emptyState "groq" "llama"
          [("x-ratelimit-remaining-requests", "0")] "t0")
        "groq" "llama" [("content-type", "application/json")] "t1") "groq" "llama" = false :=
  (rateLimit_update_wholesale
    (RateLimitService.updateFromHeaders RateLimitService.emptyState "groq" "llama"
      [("x-ratelimit-remaining-requests", "0")] "t0")
    "groq" "llama" [("content-type", "application/json")] "t1" (by decide)).2.2

/-- C5 counterexample: the cache key is the raw concatenation
`provider ++ ":" ++ model`, so the distinct pairs ("a:b", "c") and
("a", "b:c") collide; updating the first changes what `get` returns for the
second, refuting "the cached entry returned by get for any other
(provider, model) pair is unchanged by that update". -/
theorem rateLimit_other_pair_counterexample :
    RateLimitService.get
      (RateLimitService.updateFromHeaders
        (RateLimitService.updateFromHeaders RateLimitService.emptyState "a" "b:c"
          [("x-ratelimit-remaining-requests", "5")] "t0")
        "a:b" "c" [("x-ratelimit-remaining-requests", "0")] "t1")
      "a" "b:c" ≠
    RateLimitService.get
      (RateLimitService.updateFromHeaders RateLimitService.emptyState "a" "b:c"
        [("x-ratelimit-remaining-requests", "5")] "t0")
      "a" "b:c" := by decide

/-- C5 (amended): after an update for (p, m) with headers carrying
`x-ratelimit-remaining-requests: 0`, `isRateLimited` for that exact pair is
true; `get` is unchanged for any pair whose concatenated `provider:model`
cache key differs (in particular any different model under the same
provider); and in general `isRateLimited` is true iff a cached entry exists
whose remaining-requests or remaining-tokens is non-null and at most 0. -/
theorem rateLimit_roundtrip_amended (s : RateLimitService.State) (p m p' m' : String)
    (hs : HeadersJ) (now : String)
    (hzero : headersGet hs "x-ratelimit-remaining-requests" = some "0")
    (hkey : p ++ ":" ++ m ≠ p' ++ ":" ++ m') :
    RateLimitService.isRateLimited (RateLimitService.updateFromHeaders s p m hs now) p m = true
    ∧ RateLimitService.get (RateLimitService.updateFromHeaders s p m hs now) p' m' =
        RateLimitService.get s p' m'
    ∧ (∀ (s' : RateLimitService.State) (q n : String),
        RateLimitService.isRateLimited s' q n = true ↔
          ∃ e, RateLimitService.get s' q n = some e ∧
            ((∃ r, e.requests_remaining = some r ∧ r ≤ 0) ∨
             (∃ t, e.tokens_remaining = some t ∧ t ≤ 0))) := by
  have hget : RateLimitService.get (RateLimitService.updateFromHeaders s p m hs now) p m =
      some (cachedOfInfo (parseRateLimitHeaders (some hs)) now) :=
    lookupA_assocSet_self s (RateLimitService.getCacheKey p m) _
  refine ⟨?_, ?_, ?_⟩
  · unfold RateLimitService.isRateLimited
    rw [hget]
    have hrr : (cachedOfInfo (parseRateLimitHeaders (some hs)) now).requests_remaining =
        some 0 := parse_requests_remaining_zero hs hzero
    simp [hrr]
  · exact lookupA_assocSet_other s (RateLimitService.getCacheKey p m)
      (RateLimitService.getCacheKey p' m') _ hkey
  · intro s' q n
    unfold RateLimitService.isRateLimited
    cases hg : RateLimitService.get s' q n with
    | none => simp
    | some cached =>
      rcases cached with ⟨rr, rl, tr, tl, rt, ua⟩
      rcases rr with _ | r <;> rcases tr with _ | t <;> simp <;> omega

/-- C5 amended witness. -/
theorem rateLimit_roundtrip_amended_witness :
    RateLimitService.isRateLimited
      (RateLimitService.updateFromHeaders RateLimitService.emptyState "groq" "m1"
        [("x-ratelimit-remaining-requests", "0")] "t0") "groq" "m1" = true :=
  (rateLimit_roundtrip_amended RateLimitService.emptyState "groq" "m1" "groq" "m2"
    [("x-ratelimit-remaining-requests", "0")] "t0" (by decide) (by decide)).1

/-! ### Helper lemmas: substring inclusion -/

theorem chStarts_append (p l l' : List Char) (h : chStarts p l = true) :
    chStarts p (l ++ l') = true := by
  induction p generalizing l with
  | nil => simp [chStarts]
  | cons a as ih =>
    cases l with
    | nil => simp [chStarts] at h
    | cons b bs =>
      simp [chStarts] at h ⊢
      exact ⟨h.1, ih bs h.2⟩

theorem chIncl_nil_pat (l : List Char) : chIncl [] l = true := by
  cases l <;> simp [chIncl, chStarts]

theorem chIncl_append_left (p x y : List Char) (h : chIncl p x = true) :
    chIncl p (x ++ y) = true := by
  induction x with
  | nil =>
    simp [chIncl, List.isEmpty_iff] at h
    subst h
    exact chIncl_nil_pat y
  | cons c rest ih =>
    simp only [chIncl, Bool.or_eq_true] at h
    rcases h with h | h
    · have := chStarts_append p (c :: rest) y h
      simp only [List.cons_append] at this ⊢
      simp [chIncl, this]
    · simp only [List.cons_append]
      simp [chIncl, ih h]

theorem chIncl_of_starts (p l : List Char) (h : chStarts p l = true) : chIncl p l = true := by
  cases l with
  | nil =>
    cases p with
    | nil => simp [chIncl]
    | cons a as => simp [chStarts] at h
  | cons c rest => simp [chIncl, h]

/-- A pattern that starts a string is included in any extension of it. -/
theorem strIncludes_of_starts (pre s pat : String)
    (h : chStarts pat.data pre.data = true) : strIncludes (pre ++ s) pat = true := by
  unfold strIncludes
  rw [String.data_append]
  exact chIncl_append_left _ _ _ (chIncl_of_starts _ _ h)

/-- C4: for a descriptor flagged `uses_puter_credits` or with tier
`credit_backed`, `isModelUsable` composed with `getPuterCredits` reports
usable iff the lookup reports available with a positive balance; when the
SDK is missing, no user is signed in, or the lookup throws, the result is
unusable with a reason mentioning inability to verify. -/
theorem credit_usability (penv : PuterEnv) (rl : RateLimitService.State) (model : Model)
    (h : model.uses_puter_credits = true ∨ model.cost_tier = "credit_backed") :
    ((isModelUsable ⟨getPuterCredits penv, rl⟩ model).usable = true ↔
      ((getPuterCredits penv).available = true ∧
        ∃ b, (getPuterCredits penv).balance = some b ∧ 0 < b))
    ∧ ((getPuterCredits penv).available = false →
        (isModelUsable ⟨getPuterCredits penv, rl⟩ model).usable = false ∧
        strIncludes (isModelUsable ⟨getPuterCredits penv, rl⟩ model).reason
          "Cannot verify" = true) := by
  have hbranch : (model.uses_puter_credits || model.cost_tier == "credit_backed") = true := by
    rcases h with h | h <;> simp [h]
  cases penv with
  | noSdk =>
    constructor
    · simp [isModelUsable, hbranch, getPuterCredits]
    · intro _
      refine ⟨by simp [isModelUsable, hbranch, getPuterCredits], ?_⟩
      simp only [isModelUsable, hbranch, getPuterCredits]
      norm_num
      exact strIncludes_of_starts "Cannot verify Puter credits: " _ "Cannot verify" (by decide)
  | notSignedIn =>
    constructor
    · simp [isModelUsable, hbranch, getPuterCredits]
    · intro _
      refine ⟨by simp [isModelUsable, hbranch, getPuterCredits], ?_⟩
      simp only [isModelUsable, hbranch, getPuterCredits]
      norm_num
      exact strIncludes_of_starts "Cannot verify Puter credits: " _ "Cannot verify" (by decide)
  | throwsErr msg =>
    constructor
    · simp [isModelUsable, hbranch, getPuterCredits]
    · intro _
      refine ⟨by simp [isModelUsable, hbranch, getPuterCredits], ?_⟩
      simp only [isModelUsable, hbranch, getPuterCredits]
      norm_num
      exact strIncludes_of_starts "Cannot verify Puter credits: " _ "Cannot verify" (by decide)
  | user credits username =>
    constructor
    · rcases credits with _ | c
      · simp [isModelUsable, hbranch, getPuterCredits]
      · by_cases hc : c ≤ 0
        · simp [isModelUsable, hbranch, getPuterCredits, hc]
          try omega
        · simp [isModelUsable, hbranch, getPuterCredits, hc]
          try omega
    · intro hfalse
      simp [getPuterCredits] at hfalse

/-- C4 witness. -/
theorem credit_usability_witness :
    (isModelUsable ⟨getPuterCredits (.user (some 5) none), RateLimitService.emptyState⟩
      { id := "m", provider := "puter", company := "c", route := "puter",
        capabilities := capFlagsNone, ratings := none, limits := [],
        cost_tier := "credit_backed", uses_puter_credits := false,
        cost_notes := "", notes := "" }).usable = true := by
  have h := credit_usability (.user (some 5) none) RateLimitService.emptyState
    { id := "m", provider := "puter", company := "c", route := "puter",
      capabilities := capFlagsNone, ratings := none, limits := [],
      cost_tier := "credit_backed", uses_puter_credits := false,
      cost_notes := "", notes := "" } (Or.inr rfl)
  exact h.1.mpr (by constructor <;> simp [getPuterCredits])

/-- C9: a non-success provider response raises a typed error whose message is
exactly the provider name, the HTTP status and the raw error body; a 429
status or rate-limit marker text yields the distinct rate-limit error
carrying the 60-second retry-after value, other failures yield the provider
error carrying the provider name and model id; a missing (or empty, hence
falsy) credential environment value raises a configuration error naming the
credential key. -/
theorem adapter_error_contract (name : String) (status : Nat) (errorText : String)
    (modelId : String) (env : List (String × String)) (envKey : String)
    (hmiss : lookupA env envKey = none ∨ lookupA env envKey = some "") :
    (getApiKey env envKey = .error (.configuration envKey (envKey ++ " not configured")))
    ∧ (¬(status = 429 ∨
          isRateLimitError (name ++ " API error: " ++ toString status ++ " - " ++ errorText) =
            true) →
        handleErrorResponse name status errorText modelId =
          .providerErr name (name ++ " API error: " ++ toString status ++ " - " ++ errorText)
            (some modelId))
    ∧ ((status = 429 ∨
          isRateLimitError (name ++ " API error: " ++ toString status ++ " - " ++ errorText) =
            true) →
        handleErrorResponse name status errorText modelId =
          .rateLimit name (name ++ " API error: " ++ toString status ++ " - " ++ errorText) 60) := by
  refine ⟨?_, ?_, ?_⟩
  · rcases hmiss with hm | hm <;> simp [getApiKey, hm]
  · intro hnot
    rw [not_or] at hnot
    simp only [handleErrorResponse, createProviderError]
    rw [if_neg]
    simp only [Bool.or_eq_true, decide_eq_true_eq, not_or]
    exact ⟨hnot.1, by simpa using hnot.2⟩
  · intro hyes
    simp only [handleErrorResponse, createProviderError]
    rw [if_pos]
    simp only [Bool.or_eq_true, decide_eq_true_eq]
    rcases hyes with hy | hy
    · exact Or.inl hy
    · exact Or.inr hy

/-- C9 witness at a concrete non-rate-limit failure and a missing key. -/
theorem adapter_error_contract_witness :
    getApiKey [] "GROQ_API_KEY" =
      .error (.configuration "GROQ_API_KEY" "GROQ_API_KEY not configured")
    ∧ handleErrorResponse "groq" 500 "boom" "llama" =
      .providerErr "groq" "groq API error: 500 - boom" (some "llama") := by
  have h := adapter_error_contract "groq" 500 "boom" "llama" [] "GROQ_API_KEY" (Or.inl rfl)
  exact ⟨h.1, h.2.1 (by decide)⟩

/-! ### Helper lemmas: catalog structure -/

theorem bucketIds_map_id (db : Database) (ckey : String) (co : List (String × BucketVal))
    (bs : List String) :
    ((bs.flatMap (fun bucket =>
        match lookupA co bucket with
        | some (.items ids) => ids.map (buildOneModel db ckey bucket)
        | _ => [])).map (fun m => m.id)) =
      bs.flatMap (fun bucket =>
        match lookupA co bucket with
        | some (.items ids) => ids
        | _ => []) := by
  induction bs with
  | nil => simp
  | cons b rest ih =>
    simp only [List.flatMap_cons, List.map_append, ih]
    congr 1
    cases h : lookupA co b with
    | none => simp
    | some v =>
      cases v with
      | items ids =>
        have hid : ∀ i, (buildOneModel db ckey b i).id = i := fun i => rfl
        have hcomp : ((fun (m : Model) => m.id) ∘ buildOneModel db ckey b) = id :=
          funext (fun i => hid i)
        simp [List.map_map, hcomp]
      | other => simp

theorem buildModelList_map_id (db : Database) :
    (buildModelList db).map (fun m => m.id) = registryIds db := by
  unfold buildModelList registryIds
  generalize db.model_registry = reg
  induction reg with
  | nil => simp
  | cons ck rest ih =>
    simp only [List.flatMap_cons, List.map_append, ih]
    congr 1
    exact bucketIds_map_id db ck.1 ck.2 PROVIDER_BUCKETS

theorem lookupA_mem {α : Type} (l : List (String × α)) (k : String) (v : α)
    (h : lookupA l k = some v) : ∃ k', (k', v) ∈ l := by
  unfold lookupA at h
  cases hf : l.find? (fun p => p.1 == k) with
  | none => simp [hf] at h
  | some pr =>
    simp only [hf] at h
    simp at h
    refine ⟨pr.1, ?_⟩
    rw [← h, Prod.mk.eta]
    exact List.mem_of_find?_eq_some hf

theorem normalizeCostTier_mem (db : Database) (modelId : String)
    (hdet : ∀ p ∈ db.model_details, ∀ t, p.2.cost_tier = some t → t ∈ COST_TIER_ORDER) :
    normalizeCostTier modelId db ∈ COST_TIER_ORDER := by
  unfold normalizeCostTier
  split
  · simp [COST_TIER_ORDER]
  · cases hl : lookupA db.model_details modelId with
    | none => simp [COST_TIER_ORDER]
    | some d =>
      cases hct : d.cost_tier with
      | none => simp [hct, COST_TIER_ORDER]
      | some t =>
        by_cases ht : t = ""
        · simp [hct, ht, COST_TIER_ORDER]
        · obtain ⟨k', hk'⟩ := lookupA_mem db.model_details modelId d hl
          have hmem := hdet (k', d) hk' t hct
          simpa [hct, ht, COST_TIER_ORDER] using hmem

/-- Every model built by the catalog is produced from some registry triple. -/
theorem mem_buildModelList (db : Database) (m : Model) (hm : m ∈ buildModelList db) :
    ∃ ck bucket ids i, ck ∈ db.model_registry ∧ bucket ∈ PROVIDER_BUCKETS ∧
      lookupA ck.2 bucket = some (.items ids) ∧ i ∈ ids ∧
      m = buildOneModel db ck.1 bucket i := by
  unfold buildModelList at hm
  rw [List.mem_flatMap] at hm
  obtain ⟨ck, hck, hm⟩ := hm
  rw [List.mem_flatMap] at hm
  obtain ⟨bucket, hb, hm⟩ := hm
  cases hl : lookupA ck.2 bucket with
  | none => rw [hl] at hm; simp at hm
  | some v =>
    cases v with
    | items ids =>
      rw [hl] at hm
      rw [List.mem_map] at hm
      obtain ⟨i, hi, rfl⟩ := hm
      exact ⟨ck, bucket, ids, i, hck, hb, hl, hi, rfl⟩
    | other => rw [hl] at hm; simp at hm

/-- C2 counterexample: one registry placing the same model id in two buckets
yields two descriptors with the same id, and an overlay `cost_tier` outside
the four enumerated values is passed through verbatim rather than falling
back to `paid`. -/
theorem catalog_invariants_counterexample :
    ((buildModelList
      { model_registry := [("c", [("groq", .items ["m"]), ("mistral", .items ["m"])])]
        free_models := []
        model_details := [("m",
          { provider := none, route := none, capabilities := none, ratings := none,
            limits := none, cost_tier := some "banana", uses_puter_credits := false,
            cost_notes := none, notes := none })] }).map (fun m => m.id) = ["m", "m"])
    ∧ ((buildModelList
      { model_registry := [("c", [("groq", .items ["m"]), ("mistral", .items ["m"])])]
        free_models := []
        model_details := [("m",
          { provider := none, route := none, capabilities := none, ratings := none,
            limits := none, cost_tier := some "banana", uses_puter_credits := false,
            cost_notes := none, notes := none })] }).map (fun m => m.cost_tier) =
        ["banana", "banana"])
    ∧ "banana" ∉ COST_TIER_ORDER := by
  refine ⟨rfl, rfl, by decide⟩

/-- C2 (amended): in a single catalog build, every descriptor's `cost_tier`
is one of the four enumerated values provided every overlay-supplied
`cost_tier` is itself one of them (an out-of-enum overlay value is passed
through verbatim, not replaced by `paid`; only an absent or empty overlay
value falls back to the free-list tier or `paid`); and ids are unique
provided no model id occurs in more than one (company, bucket) list
occurrence across the registry. -/
theorem catalog_invariants_amended (db : Database)
    (hdet : ∀ p ∈ db.model_details, ∀ t, p.2.cost_tier = some t → t ∈ COST_TIER_ORDER)
    (hids : (registryIds db).Nodup) :
    (∀ m ∈ buildModelList db, m.cost_tier ∈ COST_TIER_ORDER)
    ∧ ((buildModelList db).map (fun m => m.id)).Nodup := by
  constructor
  · intro m hm
    obtain ⟨ck, bucket, ids, i, _, _, _, _, rfl⟩ := mem_buildModelList db m hm
    show jsOrStr ((lookupA db.model_details i).getD emptyDetail).cost_tier
      (normalizeCostTier i db) ∈ COST_TIER_ORDER
    cases hl : lookupA db.model_details i with
    | none =>
      simp only [hl, Option.getD_none]
      show jsOrStr none (normalizeCostTier i db) ∈ COST_TIER_ORDER
      simpa [jsOrStr] using normalizeCostTier_mem db i hdet
    | some d =>
      simp only [hl, Option.getD_some]
      cases hct : d.cost_tier with
      | none => simpa [jsOrStr, hct] using normalizeCostTier_mem db i hdet
      | some t =>
        by_cases ht : t = ""
        · simpa [jsOrStr, hct, ht] using normalizeCostTier_mem db i hdet
        · obtain ⟨k', hk'⟩ := lookupA_mem db.model_details i d hl
          have hmem := hdet (k', d) hk' t hct
          simpa [jsOrStr, hct, ht] using hmem
  · rw [buildModelList_map_id]
    exact hids

/-- C2 amended witness. -/
theorem catalog_invariants_amended_witness :
    (∀ m ∈ buildModelList
      { model_registry := [("c", [("groq", .items ["m1", "m2"])])]
        free_models := ["m1"]
        model_details := [] }, m.cost_tier ∈ COST_TIER_ORDER)
    ∧ ((buildModelList
      { model_registry := [("c", [("groq", .items ["m1", "m2"])])]
        free_models := ["m1"]
        model_details := [] }).map (fun m => m.id)).Nodup :=
  catalog_invariants_amended
    { model_registry := [("c", [("groq", .items ["m1", "m2"])])]
      free_models := ["m1"]
      model_details := [] }
    (by simp) (by decide)

/-- C8 counterexample: a registry bucket named after an unknown provider is
skipped by the catalog build even though it holds a list of model ids — the
builder iterates only the fixed `PROVIDER_BUCKETS` names, so no descriptor
carrying the new provider name is ever produced. -/
theorem catalog_build_unknown_bucket_counterexample :
    buildModelList
      { model_registry := [("c", [("newai", .items ["m"])])]
        free_models := []
        model_details := [] } = [] := rfl

/-- C8 (amended): for every (company, bucket, modelId) triple whose bucket
name is one of the fixed `PROVIDER_BUCKETS` and holds a list, the catalog
build constructs exactly one descriptor (the build's length equals the
number of such triples and each triple's descriptor is present, carrying the
triple's id and company, with provider and route resolved from the bucket
name via the fixed lookup table when the overlay supplies none); the lookup
table covers every fixed bucket name, so the pass-through branch is never
reached from the catalog build, and buckets outside the fixed list — like
non-list buckets — are skipped. -/
theorem catalog_build_triples_amended (db : Database) :
    ((buildModelList db).length = (registryIds db).length)
    ∧ (∀ ck ∈ db.model_registry, ∀ bucket ∈ PROVIDER_BUCKETS, ∀ ids,
        lookupA ck.2 bucket = some (.items ids) → ∀ i ∈ ids,
          buildOneModel db ck.1 bucket i ∈ buildModelList db
          ∧ (buildOneModel db ck.1 bucket i).id = i
          ∧ (buildOneModel db ck.1 bucket i).company = ck.1
          ∧ (lookupA db.model_details i = none →
              (buildOneModel db ck.1 bucket i).provider = (parseRouteKey bucket).1
              ∧ (buildOneModel db ck.1 bucket i).route = (parseRouteKey bucket).2))
    ∧ (∀ bucket ∈ PROVIDER_BUCKETS,
        parseRouteKey bucket =
          (if bucket = "direct_api" then ("direct", "direct") else (bucket, bucket))) := by
  refine ⟨?_, ?_, ?_⟩
  · have h := congrArg List.length (buildModelList_map_id db)
    simpa using h
  · intro ck hck bucket hb ids hl i hi
    refine ⟨?_, rfl, rfl, ?_⟩
    · unfold buildModelList
      rw [List.mem_flatMap]
      refine ⟨ck, hck, ?_⟩
      rw [List.mem_flatMap]
      refine ⟨bucket, hb, ?_⟩
      rw [hl]
      exact List.mem_map_of_mem _ hi
    · intro hnone
      constructor
      · show jsOrStr ((lookupA db.model_details i).getD emptyDetail).provider
          (parseRouteKey bucket).1 = (parseRouteKey bucket).1
        rw [hnone]
        rfl
      · show jsOrStr ((lookupA db.model_details i).getD emptyDetail).route
          (parseRouteKey bucket).2 = (parseRouteKey bucket).2
        rw [hnone]
        rfl
  · intro bucket hb
    fin_cases hb <;> rfl

/-- C8 amended witness. -/
theorem catalog_build_triples_amended_witness :
    buildOneModel
      { model_registry := [("c", [("groq", BucketVal.items ["m"])])]
        free_models := []
        model_details := [] } "c" "groq" "m" ∈
      buildModelList
        { model_registry := [("c", [("groq", BucketVal.items ["m"])])]
          free_models := []
          model_details := [] } :=
  ((catalog_build_triples_amended
      { model_registry := [("c", [("groq", BucketVal.items ["m"])])]
        free_models := []
        model_details := [] }).2.1 ("c", [("groq", BucketVal.items ["m"])])
    (by simp) "groq" (by decide) ["m"] rfl "m" (by simp)).1

/-- C3: for the boost tiers turbo → remote_free and ultra → credit_backed,
`checkBoostTierExhaustion` reports exhausted = true iff every catalog model
of the mapped cost tier is individually unusable; an empty tier is reported
exhausted with the distinct reason string (and a non-empty tier carries no
reason field); and for a non-empty tier, any single usable model makes the
result exhausted = false. -/
theorem tier_exhaustion (env : UsabilityEnv) (db : Database) (bt ct : String)
    (h : (bt = "turbo" ∧ ct = "remote_free") ∨ (bt = "ultra" ∧ ct = "credit_backed")) :
    (checkBoostTierExhaustion env bt db).valid = true
    ∧ ((checkBoostTierExhaustion env bt db).exhausted = some true ↔
        ∀ m ∈ (buildModelList db).filter (fun m => m.cost_tier == ct),
          (isModelUsable env m).usable = false)
    ∧ ((buildModelList db).filter (fun m => m.cost_tier == ct) = [] →
        (checkBoostTierExhaustion env bt db).reason =
          some "No models available for this boost tier")
    ∧ ((buildModelList db).filter (fun m => m.cost_tier == ct) ≠ [] →
        (checkBoostTierExhaustion env bt db).reason = none
        ∧ ((∃ m ∈ (buildModelList db).filter (fun m => m.cost_tier == ct),
              (isModelUsable env m).usable = true) →
            (checkBoostTierExhaustion env bt db).exhausted = some false)) := by
  have hco : boostTierToCostTier bt = some ct := by
    rcases h with ⟨hb, hc⟩ | ⟨hb, hc⟩ <;> subst hb <;> subst hc <;> rfl
  by_cases hemp : ((buildModelList db).filter (fun m => m.cost_tier == ct)).length = 0
  · have hnil : (buildModelList db).filter (fun m => m.cost_tier == ct) = [] :=
      List.length_eq_zero.mp hemp
    refine ⟨?_, ?_, ?_, ?_⟩
    · simp [checkBoostTierExhaustion, hco, hemp]
    · simp [checkBoostTierExhaustion, hco, hemp, hnil]
    · intro _
      simp [checkBoostTierExhaustion, hco, hemp]
    · intro hne
      exact absurd hnil hne
  · simp only [checkBoostTierExhaustion, hco, hemp, if_false]
    have hkey : (((buildModelList db).filter (fun m => m.cost_tier == ct)).map
          (fun model => (model.id, model.provider, isModelUsable env model))).filter
          (fun c => c.2.2.usable) = [] ↔
        ∀ m ∈ (buildModelList db).filter (fun m => m.cost_tier == ct),
          (isModelUsable env m).usable = false := by
      rw [List.filter_eq_nil_iff]
      constructor
      · intro hall m hm
        have := hall (m.id, m.provider, isModelUsable env m) (List.mem_map_of_mem _ hm)
        simpa using this
      · intro hall c hc
        rw [List.mem_map] at hc
        obtain ⟨m, hm, rfl⟩ := hc
        simpa using hall m hm
    refine ⟨trivial, ?_, ?_, ?_⟩
    · simp only [Option.some_inj, decide_eq_true_eq]
      rw [List.length_eq_zero]
      exact hkey
    · intro hnil
      exact absurd (congrArg List.length hnil) (by simpa using hemp)
    · intro _
      refine ⟨trivial, ?_⟩
      intro ⟨m, hm, hus⟩
      simp only [Option.some_inj, decide_eq_false_iff_not]
      rw [List.length_eq_zero, hkey]
      intro hall
      exact absurd hus (by simp [hall m hm])

/-- C3 witness: an empty catalog has an empty turbo tier, reported exhausted
with the distinct reason. -/
theorem tier_exhaustion_witness :
    (checkBoostTierExhaustion
      ⟨getPuterCredits .noSdk, RateLimitService.emptyState⟩ "turbo"
      { model_registry := [], free_models := [], model_details := [] }).reason =
      some "No models available for this boost tier" :=
  (tier_exhaustion ⟨getPuterCredits .noSdk, RateLimitService.emptyState⟩
    { model_registry := [], free_models := [], model_details := [] } "turbo" "remote_free"
    (Or.inl ⟨rfl, rfl⟩)).2.2.1 rfl

theorem tier_index_bounds (t : String) (h : t ∈ COST_TIER_ORDER) :
    jsIndexOf COST_TIER_ORDER t ≠ -1 ∧ jsIndexOf COST_TIER_ORDER t ≤ 3 := by
  fin_cases h <;> exact ⟨by decide, by decide⟩

/-- C1: `suggestModels` returns exactly the descriptors passing the
provider/cost-tier/capability filters whose cost-tier rank is at most the
rank of `max_cost_tier` (default: the most expensive rank, 3), each scored
with its rating for the requested capability (default chat, missing → 0),
arranged so consecutive results are ordered by ascending cost-tier rank,
then descending score, then descending speed rating; in the two-descriptor
scenario the remote_free chat-3 model sorts before the paid chat-5 model. -/
theorem suggestModels_spec (models : List Model) (c : ModelSuggestionConstraints)
    (hm : ∀ m ∈ models, m.cost_tier ∈ COST_TIER_ORDER)
    (hc : ∀ t, c.max_cost_tier = some t → t ∈ COST_TIER_ORDER) :
    (suggestModels models c).Perm
      (((filterModels models ⟨c.provider, c.cost_tier, c.capability⟩).filter
          (fun m => decide (jsIndexOf COST_TIER_ORDER m.cost_tier ≤
            (match c.max_cost_tier with
             | some t => jsIndexOf COST_TIER_ORDER t
             | none => 3)))).map
        (fun m => ({ toModel := m, score := scoreFor m (c.capability.getD .chat) } : ScoredModel)))
    ∧ List.Pairwise suggestLE (suggestModels models c)
    ∧ suggestModels
        [{ id := "m1", provider := "p", company := "co", route := "r",
           capabilities := { capFlagsNone with chat := true },
           ratings := some ⟨some 3, none, none, none, none, none, none, none, none⟩,
           limits := [], cost_tier := "remote_free", uses_puter_credits := false,
           cost_notes := "", notes := "" },
         { id := "m2", provider := "p", company := "co", route := "r",
           capabilities := { capFlagsNone with chat := true },
           ratings := some ⟨some 5, none, none, none, none, none, none, none, none⟩,
           limits := [], cost_tier := "paid", uses_puter_credits := false,
           cost_notes := "", notes := "" }] ⟨none, none, some .chat, none⟩ =
      [{ toModel :=
          { id := "m1", provider := "p", company := "co", route := "r",
            capabilities := { capFlagsNone with chat := true },
            ratings := some ⟨some 3, none, none, none, none, none, none, none, none⟩,
            limits := [], cost_tier := "remote_free", uses_puter_credits := false,
            cost_notes := "", notes := "" },
         score := 3 },
       { toModel :=
          { id := "m2", provider := "p", company := "co", route := "r",
            capabilities := { capFlagsNone with chat := true },
            ratings := some ⟨some 5, none, none, none, none, none, none, none, none⟩,
            limits := [], cost_tier := "paid", uses_puter_credits := false,
            cost_notes := "", notes := "" },
         score := 5 }] := by
  have hmax : (match c.max_cost_tier with
      | some t =>
        if t = "" then (COST_TIER_ORDER.length : Int) - 1 else jsIndexOf COST_TIER_ORDER t
      | none => (COST_TIER_ORDER.length : Int) - 1) =
      (match c.max_cost_tier with
       | some t => jsIndexOf COST_TIER_ORDER t
       | none => 3) := by
    cases hmc : c.max_cost_tier with
    | none => decide
    | some t =>
      have ht := hc t hmc
      have hne : ¬t = "" := by fin_cases ht <;> decide
      simp [hne]
  have hrepr : suggestModels models c =
      (((filterModels models ⟨c.provider, c.cost_tier, c.capability⟩).filter
          (fun m => decide (jsIndexOf COST_TIER_ORDER m.cost_tier ≤
            (match c.max_cost_tier with
             | some t => jsIndexOf COST_TIER_ORDER t
             | none => 3)))).map
        (fun m => ({ toModel := m, score := scoreFor m (c.capability.getD .chat) } :
          ScoredModel))).insertionSort suggestLE := by
    unfold suggestModels
    rw [hmax]
    dsimp only
    congr 1
    congr 1
    apply List.filter_congr
    intro m hmem
    have hmem' : m ∈ models := (List.mem_filter.mp hmem).1
    have hidx := (tier_index_bounds m.cost_tier (hm m hmem')).1
    simp [hidx]
  refine ⟨?_, ?_, ?_⟩
  · rw [hrepr]
    exact List.perm_insertionSort suggestLE _
  · rw [hrepr]
    exact List.sorted_insertionSort suggestLE _
  · decide

/-- C1 witness. -/
theorem suggestModels_spec_witness :
    (suggestModels
      [{ id := "m1", provider := "p", company := "co", route := "r",
         capabilities := { capFlagsNone with chat := true },
         ratings := some ⟨some 3, none, none, none, none, none, none, none, none⟩,
         limits := [], cost_tier := "remote_free", uses_puter_credits := false,
         cost_notes := "", notes := "" }] ⟨none, none, some .chat, none⟩).Perm
      (((filterModels
        [{ id := "m1", provider := "p", company := "co", route := "r",
           capabilities := { capFlagsNone with chat := true },
           ratings := some ⟨some 3, none, none, none, none, none, none, none, none⟩,
           limits := [], cost_tier := "remote_free", uses_puter_credits := false,
           cost_notes := "", notes := "" }] ⟨none, none, some .chat⟩).filter
          (fun m => decide (jsIndexOf COST_TIER_ORDER m.cost_tier ≤ 3))).map
        (fun m => ({ toModel := m, score := scoreFor m .chat } : ScoredModel))) :=
  (suggestModels_spec
    [{ id := "m1", provider := "p", company := "co", route := "r",
       capabilities := { capFlagsNone with chat := true },
       ratings := some ⟨some 3, none, none, none, none, none, none, none, none⟩,
       limits := [], cost_tier := "remote_free", uses_puter_credits := false,
       cost_notes := "", notes := "" }] ⟨none, none, some .chat, none⟩
    (by intro m hm; fin_cases hm; decide) (by intro t ht; cases ht)).1

/-! ### Helper definitions and lemmas: health status -/

theorem rateAvgCond_iff (recent : List ProviderHealthRecord) (c : ℚ) (lim : Nat) :
    (((match HealthService.successRateOf recent with
       | some q => decide (c ≤ q)
       | none => false) &&
      (match HealthService.avgLatencyOf recent with
       | some a => decide (a < lim)
       | none => true)) = true) ↔
    ((∃ q, HealthService.successRateOf recent = some q ∧ c ≤ q) ∧
     (HealthService.avgLatencyOf recent = none ∨
      ∃ a, HealthService.avgLatencyOf recent = some a ∧ a < lim)) := by
  cases hr : HealthService.successRateOf recent <;>
    cases ha : HealthService.avgLatencyOf recent <;> simp

theorem statusZeroOf_iff (recent : List ProviderHealthRecord) (hne : recent ≠ []) :
    (statusZeroOf recent = .healthy ↔ healthyCond recent)
    ∧ (statusZeroOf recent = .degraded ↔ ¬healthyCond recent ∧ degradedCond recent)
    ∧ (statusZeroOf recent = .down ↔ ¬healthyCond recent ∧ ¬degradedCond recent) := by
  have hpos : 0 < recent.length := List.length_pos.mpr hne
  have e1 := rateAvgCond_iff recent ((19 : ℚ) / 20) 2000
  have e2 := rateAvgCond_iff recent ((1 : ℚ) / 2) 5000
  unfold statusZeroOf healthyCond degradedCond
  rw [if_pos hpos]
  by_cases h1 : ((match HealthService.successRateOf recent with
      | some q => decide ((19 : ℚ) / 20 ≤ q)
      | none => false) &&
     (match HealthService.avgLatencyOf recent with
      | some a => decide (a < 2000)
      | none => true)) = true
  · rw [if_pos h1]
    have hH := e1.mp h1
    exact ⟨iff_of_true rfl hH, iff_of_false (by decide) (fun hcon => hcon.1 hH),
      iff_of_false (by decide) (fun hcon => hcon.1 hH)⟩
  · rw [if_neg h1]
    have hnH : ¬((∃ q, HealthService.successRateOf recent = some q ∧ (19 : ℚ) / 20 ≤ q) ∧
        (HealthService.avgLatencyOf recent = none ∨
          ∃ a, HealthService.avgLatencyOf recent = some a ∧ a < 2000)) :=
      fun hcontra => h1 (e1.mpr hcontra)
    by_cases h2 : ((match HealthService.successRateOf recent with
        | some q => decide ((1 : ℚ) / 2 ≤ q)
        | none => false) &&
       (match HealthService.avgLatencyOf recent with
        | some a => decide (a < 5000)
        | none => true)) = true
    · rw [if_pos h2]
      have hD := e2.mp h2
      exact ⟨iff_of_false (by decide) hnH, iff_of_true rfl ⟨hnH, hD⟩,
        iff_of_false (by decide) (fun hcon => hcon.2 hD)⟩
    · rw [if_neg h2]
      have hnD : ¬((∃ q, HealthService.successRateOf recent = some q ∧ (1 : ℚ) / 2 ≤ q) ∧
          (HealthService.avgLatencyOf recent = none ∨
            ∃ a, HealthService.avgLatencyOf recent = some a ∧ a < 5000)) :=
        fun hcontra => h2 (e2.mpr hcontra)
      exact ⟨iff_of_false (by decide) hnH, iff_of_false (by decide) (fun hcon => hnD hcon.2),
        iff_of_true rfl ⟨hnH, hnD⟩⟩

theorem getStatus_eq (history : List ProviderHealthRecord) (now : Int) (db : Database)
    (provider : String) (hh : ¬history.length = 0) :
    (HealthService.getProviderStatus history now db provider).status =
      (if 0 < (HealthService.recentOf history now).length then
        match HealthService.lastSuccessOf history with
        | some ls =>
          if ls.timestamp < now - 900000 && 5 < (HealthService.recentOf history now).length
            then HealthKind.down
            else statusZeroOf (HealthService.recentOf history now)
        | none => statusZeroOf (HealthService.recentOf history now)
      else statusZeroOf (HealthService.recentOf history now)) := by
  unfold HealthService.getProviderStatus statusZeroOf
  rw [if_neg hh]

theorem getStatus_rate (history : List ProviderHealthRecord) (now : Int) (db : Database)
    (provider : String) (hh : ¬history.length = 0) :
    (HealthService.getProviderStatus history now db provider).success_rate_last_hour =
      HealthService.successRateOf (HealthService.recentOf history now) := by
  unfold HealthService.getProviderStatus
  rw [if_neg hh]

theorem health_status_iffs (history : List ProviderHealthRecord) (now : Int)
    (db : Database) (provider : String)
    (hrec : HealthService.recentOf history now ≠ []) :
    ((HealthService.getProviderStatus history now db provider).status = .healthy ↔
      ¬forcedDownCond history now ∧ healthyCond (HealthService.recentOf history now))
    ∧ ((HealthService.getProviderStatus history now db provider).status = .degraded ↔
      ¬forcedDownCond history now ∧
        ¬healthyCond (HealthService.recentOf history now) ∧
        degradedCond (HealthService.recentOf history now))
    ∧ ((HealthService.getProviderStatus history now db provider).status = .down ↔
      forcedDownCond history now ∨
        (¬healthyCond (HealthService.recentOf history now) ∧
         ¬degradedCond (HealthService.recentOf history now))) := by
  have hh : ¬history.length = 0 := by
    intro h0
    rw [List.length_eq_zero] at h0
    apply hrec
    rw [h0]
    rfl
  have htot : 0 < (HealthService.recentOf history now).length := List.length_pos.mpr hrec
  have hsz := statusZeroOf_iff (HealthService.recentOf history now) hrec
  rw [getStatus_eq history now db provider hh]
  rw [if_pos htot]
  rcases hls : HealthService.lastSuccessOf history with _ | ls
  · have hnF : ¬forcedDownCond history now := by
      rintro ⟨⟨ls, hls', _⟩, _⟩
      rw [hls] at hls'
      cases hls'
    refine ⟨?_, ?_, ?_⟩
    · rw [hsz.1]
      exact (and_iff_right hnF).symm
    · rw [hsz.2.1]
      exact (and_iff_right hnF).symm
    · rw [hsz.2.2]
      constructor
      · exact fun hd => Or.inr hd
      · rintro (hf | hd)
        · exact absurd hf hnF
        · exact hd
  · by_cases hfd : ls.timestamp < now - 900000 ∧
        5 < (HealthService.recentOf history now).length
    · have hF : forcedDownCond history now := ⟨⟨ls, hls, hfd.1⟩, hfd.2⟩
      have hbool : (decide (ls.timestamp < now - 900000) &&
          decide (5 < (HealthService.recentOf history now).length)) = true := by
        simp [hfd.1, hfd.2]
      dsimp only
      rw [if_pos hbool]
      exact ⟨iff_of_false (by decide) (fun hcon => hcon.1 hF),
        iff_of_false (by decide) (fun hcon => hcon.1 hF),
        iff_of_true rfl (Or.inl hF)⟩
    · have hnF : ¬forcedDownCond history now := by
        rintro ⟨⟨ls', hls', hts⟩, hlen⟩
        rw [hls] at hls'
        injection hls' with he
        exact hfd ⟨by rw [he]; exact hts, hlen⟩
      have hbool : ¬((decide (ls.timestamp < now - 900000) &&
          decide (5 < (HealthService.recentOf history now).length)) = true) := by
        intro hb
        simp only [Bool.and_eq_true, decide_eq_true_eq] at hb
        exact hfd hb
      dsimp only
      rw [if_neg hbool]
      refine ⟨?_, ?_, ?_⟩
      · rw [hsz.1]
        exact (and_iff_right hnF).symm
      · rw [hsz.2.1]
        exact (and_iff_right hnF).symm
      · rw [hsz.2.2]
        constructor
        · exact fun hd => Or.inr hd
        · rintro (hf | hd)
          · exact absurd hf hnF
          · exact hd

/-- C6: over the last-hour window, the derived provider status is unknown
with no windowed calls; healthy iff (absent the stale-success override) the
success rate is at least 0.95 and the average successful latency is below
2000ms or absent; degraded iff not healthy, the rate is at least 0.5 and the
average latency is below 5000ms or absent; down otherwise — and the status
is forced to down whenever the most recent successful call is more than 15
minutes old and more than 5 calls fall in the window; 10 successes followed
by 10 failures inside the window yield success rate 1/2 and status
degraded. -/
theorem health_status_derivation (history : List ProviderHealthRecord) (now : Int)
    (db : Database) (provider : String) :
    (HealthService.recentOf history now = [] →
      (HealthService.getProviderStatus history now db provider).status = .unknown)
    ∧ (HealthService.recentOf history now ≠ [] →
        ((HealthService.getProviderStatus history now db provider).status = .healthy ↔
          ¬forcedDownCond history now ∧ healthyCond (HealthService.recentOf history now))
        ∧ ((HealthService.getProviderStatus history now db provider).status = .degraded ↔
          ¬forcedDownCond history now ∧
            ¬healthyCond (HealthService.recentOf history now) ∧
            degradedCond (HealthService.recentOf history now))
        ∧ ((HealthService.getProviderStatus history now db provider).status = .down ↔
          forcedDownCond history now ∨
            (¬healthyCond (HealthService.recentOf history now) ∧
             ¬degradedCond (HealthService.recentOf history now))))
    ∧ ((HealthService.getProviderStatus
          (List.replicate 10 ⟨"m", true, 100, none, 9400000⟩ ++
            List.replicate 10 ⟨"m", false, 100, some "e", 9500000⟩) 10000000 db
          provider).status = .degraded
       ∧ (HealthService.getProviderStatus
          (List.replicate 10 ⟨"m", true, 100, none, 9400000⟩ ++
            List.replicate 10 ⟨"m", false, 100, some "e", 9500000⟩) 10000000 db
          provider).success_rate_last_hour = some (1 / 2)) := by
  have hrate : HealthService.successRateOf
      (HealthService.recentOf
        (List.replicate 10 ⟨"m", true, 100, none, 9400000⟩ ++
          List.replicate 10 ⟨"m", false, 100, some "e", 9500000⟩) 10000000) =
      some ((10 : ℚ) / 20) := by
    have h20 : HealthService.recentOf
        (List.replicate 10 ⟨"m", true, 100, none, 9400000⟩ ++
          List.replicate 10 ⟨"m", false, 100, some "e", 9500000⟩) 10000000 =
        (List.replicate 10 ⟨"m", true, 100, none, 9400000⟩ ++
          List.replicate 10 ⟨"m", false, 100, some "e", 9500000⟩) := by decide
    rw [h20]
    unfold HealthService.successRateOf
    rw [if_neg (by decide)]
    have hf : ((List.replicate 10
        (⟨"m", true, 100, none, 9400000⟩ : ProviderHealthRecord) ++
        List.replicate 10
          (⟨"m", false, 100, some "e", 9500000⟩ : ProviderHealthRecord)).filter
          (fun h => h.success)).length = 10 := by decide
    have hl : ((List.replicate 10
        (⟨"m", true, 100, none, 9400000⟩ : ProviderHealthRecord) ++
        List.replicate 10
          (⟨"m", false, 100, some "e", 9500000⟩ : ProviderHealthRecord))).length = 20 := by
      decide
    rw [hf, hl]
    norm_num
  have havg : HealthService.avgLatencyOf
      (HealthService.recentOf
        (List.replicate 10 ⟨"m", true, 100, none, 9400000⟩ ++
          List.replicate 10 ⟨"m", false, 100, some "e", 9500000⟩) 10000000) =
      some 100 := by decide
  have hnH : ¬healthyCond
      (HealthService.recentOf
        (List.replicate 10 ⟨"m", true, 100, none, 9400000⟩ ++
          List.replicate 10 ⟨"m", false, 100, some "e", 9500000⟩) 10000000) := by
    rintro ⟨⟨q, hq, hge⟩, _⟩
    rw [hrate] at hq
    injection hq with he
    rw [← he] at hge
    norm_num at hge
  have hD : degradedCond
      (HealthService.recentOf
        (List.replicate 10 ⟨"m", true, 100, none, 9400000⟩ ++
          List.replicate 10 ⟨"m", false, 100, some "e", 9500000⟩) 10000000) := by
    refine ⟨⟨(10 : ℚ) / 20, hrate, by norm_num⟩, Or.inr ⟨100, havg, by norm_num⟩⟩
  have hnF : ¬forcedDownCond
      (List.replicate 10 ⟨"m", true, 100, none, 9400000⟩ ++
        List.replicate 10 ⟨"m", false, 100, some "e", 9500000⟩) 10000000 := by
    rintro ⟨⟨ls, hls, hts⟩, _⟩
    have hlast : HealthService.lastSuccessOf
        (List.replicate 10 (⟨"m", true, 100, none, 9400000⟩ : ProviderHealthRecord) ++
          List.replicate 10 ⟨"m", false, 100, some "e", 9500000⟩) =
        some ⟨"m", true, 100, none, 9400000⟩ := by decide
    rw [hlast] at hls
    injection hls with he
    rw [← he] at hts
    exact absurd hts (by decide)
  refine ⟨?_, health_status_iffs history now db provider, ?_, ?_⟩
  · intro hrec
    by_cases hh : history.length = 0
    · unfold HealthService.getProviderStatus
      rw [if_pos hh]
    · rw [getStatus_eq history now db provider hh, hrec]
      simp [statusZeroOf]
  · exact (health_status_iffs _ 10000000 db provider (by decide)).2.1.mpr ⟨hnF, hnH, hD⟩
  · rw [getStatus_rate _ 10000000 db provider (by decide), hrate]
    norm_num

/-- C6 witness: an empty buffer has an empty window, so the status is
unknown. -/
theorem health_status_derivation_witness :
    (HealthService.getProviderStatus [] 0
      { model_registry := [], free_models := [], model_details := [] } "p").status =
      .unknown :=
  (health_status_derivation [] 0
    { model_registry := [], free_models := [], model_details := [] } "p").1 rfl

/-! ### Helper lemmas: response normalizer -/

theorem bool_and_split {a b : Bool} (h : (a && b) = true) : a = true ∧ b = true := by
  cases a <;> cases b <;> simp_all

theorem getProp_ok (j : Js) (k : String) (h : j.isNull = false) :
    j.getProp k = .ok (propOf j k) := by
  cases j <;> simp_all [Js.getProp, propOf, Js.isNull]

theorem objTruthy_notNull (v : Js) (h : v.isObjTruthy = true) : v.isNull = false := by
  cases v <;> simp_all [Js.isObjTruthy, Js.isNull]

theorem extractOpenAI_ok (j : Js) (h1 : j.isNull = false)
    (h2 : (match propOf j "choices" with
           | .arr (c :: _) => !c.isNull
           | _ => true) = true) :
    ∃ o, extractOpenAI j = .ok o := by
  unfold extractOpenAI
  rw [getProp_ok j "choices" h1]
  cases hc : propOf j "choices" <;> try exact ⟨none, rfl⟩
  rename_i xs
  cases xs with
  | nil => exact ⟨none, rfl⟩
  | cons c rest =>
    rw [hc] at h2
    simp only [Bool.not_eq_true'] at h2
    dsimp only
    rw [getProp_ok c "message" h2]
    by_cases hm : ((propOf c "message").truthy && (propOf c "message").isObjTruthy) = true
    · have hmn : (propOf c "message").isNull = false :=
        objTruthy_notNull _ (bool_and_split hm).2
      dsimp only
      rw [if_pos hm, getProp_ok _ "content" hmn]
      exact ⟨some (jsStringOrEmpty (propOf (propOf c "message") "content")), rfl⟩
    · dsimp only
      rw [if_neg hm]
      exact ⟨none, rfl⟩

theorem extractAnthropic_ok (j : Js) (h1 : j.isNull = false)
    (h2 : (match propOf j "content" with
           | .arr (c :: _) => !c.isNull
           | _ => true) = true) :
    ∃ o, extractAnthropic j = .ok o := by
  unfold extractAnthropic
  rw [getProp_ok j "content" h1]
  cases hc : propOf j "content" <;> try exact ⟨none, rfl⟩
  rename_i xs
  cases xs with
  | nil => exact ⟨none, rfl⟩
  | cons c rest =>
    rw [hc] at h2
    simp only [Bool.not_eq_true'] at h2
    dsimp only
    rw [getProp_ok c "text" h2]
    exact ⟨some (jsStringOrEmpty (propOf c "text")), rfl⟩

theorem extractGemini_ok (j : Js) (h1 : j.isNull = false)
    (h2 : (match propOf j "candidates" with
           | .arr (c :: _) =>
             !c.isNull &&
             (if (propOf c "content").truthy && (propOf c "content").isObjTruthy then
                match propOf (propOf c "content") "parts" with
                | .arr (p :: _) => !p.isNull
                | _ => true
              else true)
           | _ => true) = true) :
    ∃ o, extractGemini j = .ok o := by
  unfold extractGemini
  rw [getProp_ok j "candidates" h1]
  cases hc : propOf j "candidates" <;> try exact ⟨none, rfl⟩
  rename_i xs
  cases xs with
  | nil => exact ⟨none, rfl⟩
  | cons c rest =>
    rw [hc] at h2
    obtain ⟨hcn, hinner⟩ := bool_and_split h2
    simp only [Bool.not_eq_true'] at hcn
    dsimp only
    rw [getProp_ok c "content" hcn]
    by_cases hco : ((propOf c "content").truthy && (propOf c "content").isObjTruthy) = true
    · rw [if_pos hco] at hinner
      have hcnn : (propOf c "content").isNull = false :=
        objTruthy_notNull _ (bool_and_split hco).2
      dsimp only
      rw [if_pos hco, getProp_ok _ "parts" hcnn]
      cases hp : propOf (propOf c "content") "parts" <;> try exact ⟨none, rfl⟩
      rename_i ps
      cases ps with
      | nil => exact ⟨none, rfl⟩
      | cons p prest =>
        rw [hp] at hinner
        simp only [Bool.not_eq_true'] at hinner
        dsimp only
        rw [getProp_ok p "text" hinner]
        exact ⟨some (jsStringOrEmpty (propOf p "text")), rfl⟩
    · dsimp only
      rw [if_neg hco]
      exact ⟨none, rfl⟩

theorem extractCohere_ok (j : Js) (h1 : j.isNull = false)
    (h2 : (if (propOf j "message").truthy && (propOf j "message").isObjTruthy then
             match propOf (propOf j "message") "content" with
             | .arr (c :: _) => !c.isNull
             | _ => true
           else true) = true) :
    ∃ o, extractCohere j = .ok o := by
  unfold extractCohere
  rw [getProp_ok j "message" h1]
  by_cases hm : ((propOf j "message").truthy && (propOf j "message").isObjTruthy) = true
  · rw [if_pos hm] at h2
    have hmn : (propOf j "message").isNull = false :=
      objTruthy_notNull _ (bool_and_split hm).2
    dsimp only
    rw [if_pos hm, getProp_ok _ "content" hmn]
    cases hc : propOf (propOf j "message") "content" <;> try exact ⟨none, rfl⟩
    rename_i xs
    cases xs with
    | nil => exact ⟨none, rfl⟩
    | cons c rest =>
      rw [hc] at h2
      simp only [Bool.not_eq_true'] at h2
      dsimp only
      rw [getProp_ok c "text" h2]
      exact ⟨some (jsStringOrEmpty (propOf c "text")), rfl⟩
  · dsimp only
    rw [if_neg hm]
    exact ⟨none, rfl⟩

theorem extractCloudflare_ok (j : Js) (h1 : j.isNull = false) :
    ∃ o, extractCloudflare j = .ok o := by
  unfold extractCloudflare
  rw [getProp_ok j "result" h1]
  by_cases hr : ((propOf j "result").truthy && (propOf j "result").isObjTruthy) = true
  · have hrn : (propOf j "result").isNull = false :=
      objTruthy_notNull _ (bool_and_split hr).2
    dsimp only
    rw [if_pos hr, getProp_ok _ "response" hrn]
    exact ⟨some (jsStringOrEmpty (propOf (propOf j "result") "response")), rfl⟩
  · dsimp only
    rw [if_neg hr]
    exact ⟨none, rfl⟩

theorem extractHuggingFace_ok (j : Js) (h1 : j.isNull = false) :
    ∃ o, extractHuggingFace j = .ok o := by
  unfold extractHuggingFace
  rw [getProp_ok j "generated_text" h1]
  by_cases hg : (propOf j "generated_text").truthy = true
  · dsimp only
    rw [if_pos hg]
    exact ⟨some (Js.jsString (propOf j "generated_text")), rfl⟩
  · dsimp only
    rw [if_neg hg]
    exact ⟨none, rfl⟩

theorem extractContent_total (j : Js) (hsafe : extractSafe j = true) :
    ∃ s, extractContent j = .ok s := by
  have hsafe' : _ ∧ _ := bool_and_split hsafe
  obtain ⟨hrest, h5⟩ := hsafe'
  obtain ⟨hrest2, h4⟩ := bool_and_split hrest
  obtain ⟨hrest3, h3⟩ := bool_and_split hrest2
  obtain ⟨h1, h2⟩ := bool_and_split hrest3
  simp only [Bool.not_eq_true'] at h1
  obtain ⟨o1, ho1⟩ := extractOpenAI_ok j h1 h2
  unfold extractContent
  rw [ho1]
  cases o1 with
  | some s => exact ⟨s, rfl⟩
  | none =>
    obtain ⟨o2, ho2⟩ := extractAnthropic_ok j h1 h3
    rw [ho2]
    cases o2 with
    | some s => exact ⟨s, rfl⟩
    | none =>
      obtain ⟨o3, ho3⟩ := extractGemini_ok j h1 h4
      rw [ho3]
      cases o3 with
      | some s => exact ⟨s, rfl⟩
      | none =>
        obtain ⟨o4, ho4⟩ := extractCohere_ok j h1 h5
        rw [ho4]
        cases o4 with
        | some s => exact ⟨s, rfl⟩
        | none =>
          obtain ⟨o5, ho5⟩ := extractCloudflare_ok j h1
          rw [ho5]
          cases o5 with
          | some s => exact ⟨s, rfl⟩
          | none =>
            obtain ⟨o6, ho6⟩ := extractHuggingFace_ok j h1
            rw [ho6]
            cases o6 with
            | some s => exact ⟨s, rfl⟩
            | none => exact ⟨Js.stringify j, rfl⟩

/-- C7 counterexample: the source starts with `res.choices`, and property
access on a `null` response throws a TypeError, so `extractContent` does not
return a string for every input value. -/
theorem extractContent_null_counterexample :
    extractContent Js.null =
      .error "TypeError: Cannot read properties of null (reading choices)" := rfl

/-- C7 (amended): for every input that is not null/undefined and whose
pattern-accessed array heads are non-null (`extractSafe`), `extractContent`
returns a string without throwing, matching the response shapes in the
priority order choices → content blocks → candidates → message.content →
result.response → generated_text, with a stringify fallback: the
OpenAI-shaped input returns "hi" (also when an Anthropic-style `content`
block is present, showing the priority), and an unrecognized shape returns
the stringified input. -/
theorem extractContent_amended (j : Js) (hsafe : extractSafe j = true) :
    (∃ s, extractContent j = .ok s)
    ∧ extractContent (Js.obj [("choices", Js.arr [Js.obj [("message",
        Js.obj [("content", Js.str "hi")])]])]) = .ok "hi"
    ∧ extractContent (Js.obj [("unknown", Js.str "shape")]) =
        .ok "\x7b\"unknown\":\"shape\"\x7d"
    ∧ extractContent (Js.obj [("choices", Js.arr [Js.obj [("message",
        Js.obj [("content", Js.str "hi")])]]),
        ("content", Js.arr [Js.obj [("text", Js.str "anthropic")]])]) = .ok "hi" :=
  by
  refine ⟨extractContent_total j hsafe, ?_, ?_, ?_⟩
  · simp [extractContent, extractOpenAI, extractAnthropic, extractGemini, extractCohere,
      extractCloudflare, extractHuggingFace, Js.getProp, lookupA, jsStringOrEmpty,
      Js.truthy, Js.isObjTruthy, Js.jsString]
  · simp [extractContent, extractOpenAI, extractAnthropic, extractGemini, extractCohere,
      extractCloudflare, extractHuggingFace, Js.getProp, lookupA, jsStringOrEmpty,
      Js.truthy, Js.isObjTruthy, Js.jsString, Js.stringify, Js.stringifyFields,
      Js.escapeChar, String.join]
    decide
  · simp [extractContent, extractOpenAI, extractAnthropic, extractGemini, extractCohere,
      extractCloudflare, extractHuggingFace, Js.getProp, lookupA, jsStringOrEmpty,
      Js.truthy, Js.isObjTruthy, Js.jsString]

/-- C7 amended witness. -/
theorem extractContent_amended_witness :
    ∃ s, extractContent (Js.obj [("unknown", Js.str "shape")]) = .ok s :=
  (extractContent_amended (Js.obj [("unknown", Js.str "shape")]) (by decide)).1

end TurboConsole
